import Mathlib

/-!
Verification of the spooky_bsp chunk decoders (material, model part, world,
chunk header) against their natural-language specification.

The byte stream is modelled as a `List Nat` of bytes; every decoder is a
state-passing function returning `Except DecodeError (value × remaining bytes)`,
translated statement-by-statement from the Rust source in `src/chunk/`.
Machine integers are modelled as `Nat` (unsigned) and `Int` (signed, two's
complement decoded from the 32-bit little-endian pattern); `f32` fields are
kept as their raw 32-bit little-endian bit patterns (`Nat`), since the
decoders only move float bytes and never compute with them.

`Vec::with_capacity(n)` in the source panics when the requested capacity
exceeds `isize::MAX` bytes; this abort is modelled by the `capacityOverflow`
error so that it stays observable (it is reachable: a negative length cast
with `as usize` always exceeds `isize::MAX` bytes).
-/

namespace SpookyBsp

/-- Error outcomes of decoding. `shortRead` models an `io::Error` from a read
past the end of the input; `unrecognizedChunkType` models the
`TryFromPrimitiveError` of `ChunkType::try_from`; `capacityOverflow` models
the `Vec::with_capacity` panic (a process abort, not a returned error). -/
inductive DecodeError where
  | shortRead : DecodeError
  | unrecognizedChunkType : Int → DecodeError
  | capacityOverflow : DecodeError
deriving DecidableEq, Repr

instance {ε α : Type} [DecidableEq ε] [DecidableEq α] :
    DecidableEq (Except ε α) := fun a b =>
  match a, b with
  | .ok x, .ok y =>
    if h : x = y then .isTrue (by rw [h])
    else .isFalse (by intro hc; cases hc; exact h rfl)
  | .error e, .error f =>
    if h : e = f then .isTrue (by rw [h])
    else .isFalse (by intro hc; cases hc; exact h rfl)
  | .ok _, .error _ => .isFalse (by intro hc; cases hc)
  | .error _, .ok _ => .isFalse (by intro hc; cases hc)

/-- Reader monad over a byte stream: state-passing with failure. -/
def ReadM (α : Type) : Type := List Nat → Except DecodeError (α × List Nat)

/-- Monadic return: consume nothing. -/
def ReadM.pure (a : α) : ReadM α := fun s => .ok (a, s)

/-- Monadic sequencing: run the first reader, feed its leftover to the second;
propagate errors. -/
def ReadM.bind (m : ReadM α) (f : α → ReadM β) : ReadM β := fun s =>
  match m s with
  | .ok (a, s1) => f a s1
  | .error e => .error e

instance : Monad ReadM where
  pure := ReadM.pure
  bind := ReadM.bind

/-- Failure that consumes nothing. -/
def ReadM.fail (e : DecodeError) : ReadM α := fun _ => .error e

/-- Reads one byte (`read_u8`): the head of the stream, or a short read. -/
def readU8 : ReadM Nat := fun s =>
  match s with
  | [] => .error .shortRead
  | b :: rest => .ok (b, rest)

/-- Reads a little-endian unsigned 16-bit integer (`read_u16::<LittleEndian>`). -/
def readU16le : ReadM Nat := do
  let b0 ← readU8
  let b1 ← readU8
  ReadM.pure (b0 + 256 * b1)

/-- Reads a little-endian unsigned 32-bit integer (`read_u32::<LittleEndian>`). -/
def readU32le : ReadM Nat := do
  let b0 ← readU8
  let b1 ← readU8
  let b2 ← readU8
  let b3 ← readU8
  ReadM.pure (b0 + 256 * b1 + 65536 * b2 + 16777216 * b3)

/-- Interprets a 32-bit unsigned value as a signed two's-complement integer. -/
def toI32 (n : Nat) : Int :=
  if n < 2147483648 then (n : Int) else (n : Int) - 4294967296

/-- Reads a little-endian signed 32-bit integer (`read_i32::<LittleEndian>`). -/
def readI32le : ReadM Int := do
  let n ← readU32le
  ReadM.pure (toI32 n)

/-- Reads a little-endian 32-bit float (`read_f32::<LittleEndian>`), kept as
its raw bit pattern. -/
def readF32le : ReadM Nat := readU32le

/-- Reads a 32-bit signed integer and compares it with zero, modelling the
recurring Rust pattern `reader.read_i32::<LittleEndian>()? != 0`. -/
def readBool32 : ReadM Bool := do
  let v ← readI32le
  ReadM.pure (v != 0)

/-- Value of `isize::MAX` on the 64-bit targets the crate is built for. -/
def isizeMax : Nat := 9223372036854775807

/-- Models the Rust cast `v as usize` of a signed 32-bit value on a 64-bit
target: reduction of the two's-complement pattern modulo `2^64`. -/
def intAsUsize (v : Int) : Nat := (v % 18446744073709551616).toNat

/-- Models the Rust cast `v as u8` of a signed 32-bit value: the low byte. -/
def intAsU8 (v : Int) : Nat := (v % 256).toNat

/-- Models `Vec::with_capacity(cap)` for elements of `elemSize` bytes: it
panics (aborting decode) when the requested capacity exceeds `isize::MAX`
bytes, and is otherwise a no-op for decoding purposes. -/
def checkCap (elemSize cap : Nat) : ReadM Unit := fun s =>
  if elemSize * cap ≤ isizeMax then .ok ((), s) else .error .capacityOverflow

/-- Reduction of a value to its low 32 bits; decoding a 32-bit builder
always yields this reduction of the builder's argument. -/
def m32 (n : Nat) : Nat := n % 4294967296

/-- Reduction of a value to its low 16 bits. -/
def m16 (n : Nat) : Nat := n % 65536

/-- Signed 32-bit wrap: the value actually decoded by `readI32le` from the
little-endian encoding of an arbitrary integer. -/
def wrapI32 (v : Int) : Int := toI32 ((v % 4294967296).toNat)

/-- Little-endian 4-byte encoding of an unsigned 32-bit value. -/
def u32bytes (n : Nat) : List Nat :=
  [n % 256, n / 256 % 256, n / 65536 % 256, n / 16777216 % 256]

/-- Little-endian 4-byte encoding of a signed 32-bit value. -/
def i32bytes (v : Int) : List Nat := u32bytes ((v % 4294967296).toNat)

/-- Little-endian 2-byte encoding of an unsigned 16-bit value. -/
def u16bytes (n : Nat) : List Nat := [n % 256, n / 256 % 256]

/-- Concatenated little-endian encodings of a list of 32-bit words. -/
def u32sBytes : List Nat → List Nat
  | [] => []
  | n :: ns => u32bytes n ++ u32sBytes ns

/-- Statement that a reader consumes exactly the bytes `enc` producing `val`,
whatever follows them. -/
def Consumes (m : ReadM α) (enc : List Nat) (val : α) : Prop :=
  ∀ rest, m (enc ++ rest) = .ok (val, rest)

/-- Modelled from the spec: the crate-root `Rgba` color aggregate (its
definition is outside `src/chunk/`); four components held as the raw decoded
words, section 4.1 of the spec ("a 4-component color as either 4 floats or 4
bytes normalized"). -/
structure Rgba where
  r : Nat
  g : Nat
  b : Nat
  a : Nat
deriving DecidableEq, Repr

/-- Modelled from the spec: `Rgba::decode`, four little-endian `f32`
components read in fixed order (spec section 4.1). -/
def Rgba.decode : ReadM Rgba := do
  let r ← readF32le
  let g ← readF32le
  let b ← readF32le
  let a ← readF32le
  ReadM.pure ⟨r, g, b, a⟩

/-- Modelled from the spec: `Rgba::decode_u8`, four byte components read in
fixed order (spec section 4.1, "4 bytes normalized"). -/
def Rgba.decodeU8 : ReadM Rgba := do
  let r ← readU8
  let g ← readU8
  let b ← readU8
  let a ← readU8
  ReadM.pure ⟨r, g, b, a⟩

/-- Modelled from the spec: the crate-root `Rgb` aggregate used for the world
ambient color, "read as 3 bytes" (spec section 4.5). -/
structure Rgb where
  r : Nat
  g : Nat
  b : Nat
deriving DecidableEq, Repr

/-- Modelled from the spec: `Rgb::decode_u8`, three byte components. -/
def Rgb.decodeU8 : ReadM Rgb := do
  let r ← readU8
  let g ← readU8
  let b ← readU8
  ReadM.pure ⟨r, g, b⟩

/-- Modelled from the spec: the alpha channel value of a fully-opaque color
produced by the `Rgb → Rgba` conversion ("alpha implicitly fully-opaque",
spec section 4.5). -/
def opaqueAlpha : Nat := 255

/-- Modelled from the spec: the `From<Rgb> for Rgba` conversion used by
`World::decode` (`Rgb::decode_u8(reader)?.into()`). -/
def Rgb.toRgba (c : Rgb) : Rgba := ⟨c.r, c.g, c.b, opaqueAlpha⟩

/-- Modelled from the spec: the crate-root `Vector3` aggregate, three `f32`
components in fixed order (spec section 4.1). -/
structure Vector3 where
  x : Nat
  y : Nat
  z : Nat
deriving DecidableEq, Repr

/-- Modelled from the spec: `Vector3::decode`, three little-endian `f32`
components in fixed order. -/
def Vector3.decode : ReadM Vector3 := do
  let x ← readF32le
  let y ← readF32le
  let z ← readF32le
  ReadM.pure ⟨x, y, z⟩

/-- Reads `n` consecutive little-endian `f32` values. -/
def readF32s : Nat → ReadM (List Nat)
  | 0 => ReadM.pure []
  | n + 1 => do
    let x ← readF32le
    let xs ← readF32s n
    ReadM.pure (x :: xs)

/-- Modelled from the spec: the crate-root `Matrix` transform, "a 4×4 or
equivalent transform" (spec section 4.1), sixteen `f32` entries in stream
order. -/
structure Matrix where
  entries : List Nat
deriving DecidableEq, Repr

/-- Modelled from the spec: `Matrix::decode`, sixteen little-endian `f32`
entries in fixed order. -/
def Matrix.decode : ReadM Matrix := do
  let es ← readF32s 16
  ReadM.pure ⟨es⟩

/-- Modelled from the spec: the crate-root `BoundingBox` aggregate, "a min/max
bounding box ... decode order min-then-max" (spec sections 4.1 and 4.5). -/
structure BoundingBox where
  min : Vector3
  max : Vector3
deriving DecidableEq, Repr

/-- Modelled from the spec: `BoundingBox::decode`, minimum then maximum
3-component extrema. -/
def BoundingBox.decode : ReadM BoundingBox := do
  let mn ← Vector3.decode
  let mx ← Vector3.decode
  ReadM.pure ⟨mn, mx⟩

/-! World and floors, from `src/chunk/world.rs`. -/

/-- Structure of `src/chunk/world.rs`: a floor record. -/
structure Floor where
  occlusion_bsp : Nat
  ghost_camera : BoundingBox
deriving DecidableEq, Repr

/-- Translation of `Floor::decode` (world.rs lines 54-59): an occlusion-BSP
reference then the ghost-camera bounding box. -/
def Floor.decode : ReadM Floor := do
  let occlusion_bsp ← readU32le
  let ghost_camera ← BoundingBox.decode
  ReadM.pure ⟨occlusion_bsp, ghost_camera⟩

/-- Size in bytes of the Rust `Floor` struct (`u32` plus six `f32`), used by
the `Vec::with_capacity(floor_count as usize)` model; the exact value is
irrelevant to the decoded result, it only feeds the capacity-overflow check. -/
def floorSize : Nat := 28

/-- Decodes `n` consecutive floor records (the `for floor_index in
0..floor_count` loop of `World::decode`). -/
def decodeFloors : Nat → ReadM (List Floor)
  | 0 => ReadM.pure []
  | n + 1 => do
    let f ← Floor.decode
    let fs ← decodeFloors n
    ReadM.pure (f :: fs)

/-- Structure of `src/chunk/world.rs`: the world record. -/
structure World where
  flags : Nat
  ambient : Rgba
  floors : List Floor
  zone_count : Int
  have_occlusion_bsp : Bool
  have_nulls : Bool
  have_waypoints : Bool
  have_mesh : Bool
deriving DecidableEq, Repr

/-- Translation of `World::decode` (world.rs lines 19-41): flags, ambient
color from 3 bytes, signed floor count, `Vec::with_capacity` for the floors,
the floor loop, then zone count and four nonzero-test booleans. -/
def World.decode : ReadM World := do
  let flags ← readU32le
  let ambientRgb ← Rgb.decodeU8
  let ambient := ambientRgb.toRgba
  let floor_count ← readI32le
  let _ ← checkCap floorSize (intAsUsize floor_count)
  let floors ← decodeFloors floor_count.toNat
  let zone_count ← readI32le
  let have_occlusion_bsp ← readBool32
  let have_nulls ← readBool32
  let have_waypoints ← readBool32
  let have_mesh ← readBool32
  ReadM.pure ⟨flags, ambient, floors, zone_count, have_occlusion_bsp,
    have_nulls, have_waypoints, have_mesh⟩

/-! Model parts and vertices, from `src/chunk/model_part.rs`. -/

/-- Flag constant `HAS_VERTEX` of model_part.rs line 7. -/
def HAS_VERTEX : Nat := 1 <<< 8

/-- Flag constant `HAS_NORMAL` of model_part.rs line 8. -/
def HAS_NORMAL : Nat := 1 <<< 9

/-- Flag constant `HAS_RECIPROCAL_HOMOGENEOUS_W` of model_part.rs line 9. -/
def HAS_RECIPROCAL_HOMOGENEOUS_W : Nat := 1 <<< 10

/-- Flag constant `HAS_DIFFUSE` of model_part.rs line 10. -/
def HAS_DIFFUSE : Nat := 1 <<< 11

/-- Flag constant `HAS_WEIGHT` of model_part.rs line 11. -/
def HAS_WEIGHT : Nat := 1 <<< 12

/-- Flag constant `HAS_INDICES` of model_part.rs line 12. -/
def HAS_INDICES : Nat := 1 <<< 13

/-- Flag constant `UV_COUNT_MASK` of model_part.rs line 13. -/
def UV_COUNT_MASK : Nat := 255

/-- Translation of the recurring conditional-field pattern of
`Vertex::decode`: when the gate is true decode the field and wrap it in
`some`, otherwise the field is absent and nothing is read. -/
def decodeIf (cond : Bool) (r : ReadM α) : ReadM (Option α) :=
  if cond then do
    let v ← r
    ReadM.pure (some v)
  else
    ReadM.pure none

/-- Reads the two unsigned 16-bit bone indices of a vertex. -/
def readIndexPair : ReadM (Nat × Nat) := do
  let index0 ← readU16le
  let index1 ← readU16le
  ReadM.pure (index0, index1)

/-- Reads `n` UV coordinate pairs (`f32` each), in stream order. -/
def readUVs : Nat → ReadM (List (Nat × Nat))
  | 0 => ReadM.pure []
  | n + 1 => do
    let u ← readF32le
    let v ← readF32le
    let uvs ← readUVs n
    ReadM.pure ((u, v) :: uvs)

/-- Size in bytes of a Rust `(f32, f32)` pair, for the `Vec::with_capacity`
model of the UV vector. -/
def uvPairSize : Nat := 8

/-- Size in bytes of the Rust `Vertex` struct, for the `Vec::with_capacity`
model of the vertex vector; the exact value is irrelevant (a `u32` count can
never overflow `isize::MAX` bytes at this element size). -/
def vertexSize : Nat := 88

/-- Structure of `src/chunk/model_part.rs`: a sparse vertex record. -/
structure Vertex where
  vertex : Option Vector3
  normal : Option Vector3
  reciprocal_homogeneous_w : Option Nat
  diffuse : Option Rgba
  weight : Option Nat
  indices : Option (Nat × Nat)
  uvs : List (Nat × Nat)
deriving DecidableEq, Repr

/-- Translation of `Vertex::decode` (model_part.rs lines 108-176): six
bit-gated optional fields in fixed order, then `flags & UV_COUNT_MASK` UV
pairs. -/
def Vertex.decode (flags : Nat) : ReadM Vertex := do
  let vertex ← decodeIf (flags &&& HAS_VERTEX != 0) Vector3.decode
  let normal ← decodeIf (flags &&& HAS_NORMAL != 0) Vector3.decode
  let reciprocal_homogeneous_w ←
    decodeIf (flags &&& HAS_RECIPROCAL_HOMOGENEOUS_W != 0) readU32le
  let diffuse ← decodeIf (flags &&& HAS_DIFFUSE != 0) Rgba.decodeU8
  let weight ← decodeIf (flags &&& HAS_WEIGHT != 0) readF32le
  let indices ← decodeIf (flags &&& HAS_INDICES != 0) readIndexPair
  let _ ← checkCap uvPairSize (flags &&& UV_COUNT_MASK)
  let uvs ← readUVs (flags &&& UV_COUNT_MASK)
  ReadM.pure ⟨vertex, normal, reciprocal_homogeneous_w, diffuse, weight,
    indices, uvs⟩

/-- Decodes `n` consecutive vertices, every one under the same part-level
flag word (the `for vertex_index in 0..vertex_count` loop of
`ModelPart::decode`). -/
def decodeVertices (flags : Nat) : Nat → ReadM (List Vertex)
  | 0 => ReadM.pure []
  | n + 1 => do
    let v ← Vertex.decode flags
    let vs ← decodeVertices flags n
    ReadM.pure (v :: vs)

/-- Structure of `src/chunk/model_part.rs`: a model part. The `vertices`
field replaces the Rust `Vec<Vertex>`; the header fields are listed in the
struct's order. -/
structure ModelPart where
  read_access_flags : Nat
  vertex_read_flags : Nat
  write_access_flags : Nat
  vertex_write_flags : Nat
  hint_flags : Nat
  constant_flags : Nat
  vertex_flags : Nat
  render_flags : Nat
  triangles_count : Nat
  strips_count : Nat
  strip_triangles_count : Nat
  material_hash : Nat
  triangle_index0 : Int
  triangle_index1 : Int
  vertex_index0 : Int
  vertex_index1 : Int
  layer_z : Nat
  floor_flags : Nat
  flags : Nat
  lighting_sid : Nat
  vertices : List Vertex
deriving DecidableEq, Repr

/-- Translation of `ModelPart::decode` (model_part.rs lines 40-94): the
fixed header reads in source order, `Vec::with_capacity(vertex_count)`,
then exactly `vertex_count` vertices decoded under the part's `flags` word. -/
def ModelPart.decode : ReadM ModelPart := do
  let read_access_flags ← readU32le
  let vertex_read_flags ← readU32le
  let write_access_flags ← readU32le
  let vertex_write_flags ← readU32le
  let hint_flags ← readU32le
  let constant_flags ← readU32le
  let vertex_flags ← readU32le
  let render_flags ← readU32le
  let vertex_count ← readU32le
  let triangles_count ← readU16le
  let strips_count ← readU16le
  let strip_triangles_count ← readU16le
  let material_hash ← readU32le
  let triangle_index0 ← readI32le
  let triangle_index1 ← readI32le
  let vertex_index0 ← readI32le
  let vertex_index1 ← readI32le
  let layer_z ← readU32le
  let floor_flags ← readU32le
  let flags ← readU32le
  let lighting_sid ← readU32le
  let _ ← checkCap vertexSize vertex_count
  let vertices ← decodeVertices flags vertex_count
  ReadM.pure ⟨read_access_flags, vertex_read_flags, write_access_flags,
    vertex_write_flags, hint_flags, constant_flags, vertex_flags,
    render_flags, triangles_count, strips_count, strip_triangles_count,
    material_hash, triangle_index0, triangle_index1, vertex_index0,
    vertex_index1, layer_z, floor_flags, flags, lighting_sid, vertices⟩

/-! Chunk headers, from `src/chunk/mod.rs`. -/

/-- Translation of the `ChunkType` enumeration (mod.rs lines 22-51). -/
inductive ChunkType where
  | Textures
  | Materials
  | MaterialObj
  | World
  | AnimLib
  | Entities
  | Entity
  | SpLights
  | Zones
  | NavigationMesh
  | WpPoints
  | SectorOctree
  | Occlusion
  | Area
  | SkinObj
  | BoneObj
  | OcclusionMesh
  | ModelGroup
  | SPMesh
  | Collision
  | AtomicMesh
  | GLCamera
  | GLProject
  | LightObj
  | LinkEmm
  | LevelObj
deriving DecidableEq, Repr

/-- Translation of `ChunkType::try_from` (the `TryFromPrimitive` derive over
the discriminant values of mod.rs lines 22-51): `none` for any code outside
the closed enumeration. -/
def ChunkType.tryFrom (v : Int) : Option ChunkType :=
  if v = 20002 then some .Textures
  else if v = 1010 then some .Materials
  else if v = 5 then some .MaterialObj
  else if v = 1012 then some .World
  else if v = 1017 then some .AnimLib
  else if v = 20000 then some .Entities
  else if v = 20001 then some .Entity
  else if v = 1029 then some .SpLights
  else if v = 1023 then some .Zones
  else if v = 1021 then some .NavigationMesh
  else if v = 1020 then some .WpPoints
  else if v = 1011 then some .SectorOctree
  else if v = 1019 then some .Occlusion
  else if v = 1024 then some .Area
  else if v = 1005 then some .SkinObj
  else if v = 1001 then some .BoneObj
  else if v = 1018 then some .OcclusionMesh
  else if v = 1000 then some .ModelGroup
  else if v = 1002 then some .SPMesh
  else if v = 1003 then some .Collision
  else if v = 1004 then some .AtomicMesh
  else if v = 1006 then some .GLCamera
  else if v = 1 then some .GLProject
  else if v = 1007 then some .LightObj
  else if v = 1026 then some .LinkEmm
  else if v = 1009 then some .LevelObj
  else none

/-- Structure of `src/chunk/mod.rs`: the chunk header. -/
structure ChunkHeader where
  chunk_type : ChunkType
  size : Int
  version : Int
deriving DecidableEq, Repr

/-- Translation of `ChunkHeader::decode` (mod.rs lines 74-82): read the type
code, resolve it (failing on an unknown code before reading anything else),
then read size and version, both stored uninterpreted. -/
def ChunkHeader.decode : ReadM ChunkHeader := do
  let t ← readI32le
  match ChunkType.tryFrom t with
  | some chunk_type => do
    let size ← readI32le
    let version ← readI32le
    ReadM.pure ⟨chunk_type, size, version⟩
  | none => ReadM.fail (.unrecognizedChunkType t)

/-! Materials, from `src/chunk/material.rs`. -/

/-- Structure of material.rs lines 199-202 (`source_mode`,
`destionation_mode` spelled as in the source). -/
structure BlendModes where
  source_mode : Int
  destionation_mode : Int
deriving DecidableEq, Repr

/-- Translation of `BlendModes::decode` (material.rs lines 205-210). -/
def BlendModes.decode : ReadM BlendModes := do
  let source_mode ← readI32le
  let destionation_mode ← readI32le
  ReadM.pure ⟨source_mode, destionation_mode⟩

/-- Structure of material.rs lines 214-217. -/
structure AlphaTestMode where
  comparision_function : Int
  reference : Nat
deriving DecidableEq, Repr

/-- Translation of `AlphaTestMode::decode` (material.rs lines 220-225). -/
def AlphaTestMode.decode : ReadM AlphaTestMode := do
  let comparision_function ← readI32le
  let reference ← readF32le
  ReadM.pure ⟨comparision_function, reference⟩

/-- Structure of material.rs lines 188-196: one texture slot. Names are kept
as the list of decoded low bytes (the Rust code reads each character as a
32-bit integer and truncates it with `as u8`). -/
structure MaterialTexture where
  uv_set : Nat
  name : List Nat
  format : Int
  address : Int
  mask_name : List Nat
  border_colour : Rgba
  hash : Nat
deriving DecidableEq, Repr

/-- Translation of `MaterialTexture::default()` (the `#[derive(Default)]` of
material.rs line 187): zeroed numbers, empty strings, zeroed color. -/
def MaterialTexture.default : MaterialTexture :=
  ⟨0, [], 0, 0, [], ⟨0, 0, 0, 0⟩, 0⟩

/-- Structure of material.rs lines 162-185, in the struct's field order
(which differs from the decode read order). `f32` fields carry bit
patterns. -/
structure Attributes where
  flags : Nat
  additive_lighting_model : Bool
  colour : Rgba
  specular : Rgba
  power : Nat
  shading_mode : Int
  depth_buffer_write : Bool
  depth_buffer_comparison_mode : Int
  blend : Bool
  blend_modes : BlendModes
  alpha_test : Bool
  alpha_test_mode : AlphaTestMode
  owner : Nat
  colour_buffer_write : Nat
  use_matrices : List Bool
  generators : List Int
  uv_sets : List Nat
  texture_hashes : List Nat
  envmap_type : Int
  planar_sheer_envmap_distance : Nat
deriving DecidableEq, Repr

/-- Structure of material.rs lines 9-13: the decoded material. The fixed
arrays `[_; 5]` are modelled by 5-element lists. -/
structure Material where
  material_hash : Nat
  attributes : Attributes
  textures : List MaterialTexture
deriving DecidableEq, Repr

/-- Size in bytes of a Rust `char`, for the `Vec::with_capacity` model of the
name vectors. -/
def charSize : Nat := 4

/-- Reads one name character: a 32-bit integer truncated to its low byte
(`reader.read_i32::<LittleEndian>()? as u8 as char`, material.rs line 67). -/
def readNameChar : ReadM Nat := do
  let v ← readI32le
  ReadM.pure (intAsU8 v)

/-- Reads `n` name characters. -/
def readNameChars : Nat → ReadM (List Nat)
  | 0 => ReadM.pure []
  | n + 1 => do
    let c ← readNameChar
    let cs ← readNameChars n
    ReadM.pure (c :: cs)

/-- Translation of one iteration of the texture-slot loop of
`Material::decode` (material.rs lines 57-95). The triple returned is
`(uv_sets[i], texture_hashes[i], textures[i])` after the iteration: on a
non-positive name length the loop `continue`s, leaving the zero / default
array entries in place; on a positive length it reads the full slot and
stores the same `uv_set` and `hash` into the per-slot arrays. The two
`Vec::with_capacity(length as usize)` calls of the source are modelled by
`checkCap` at the positions they occupy. -/
def Material.decodeSlot : ReadM (Nat × Nat × MaterialTexture) := do
  let uv_set ← readU32le
  let name_length ← readI32le
  if name_length ≤ 0 then
    ReadM.pure (0, 0, MaterialTexture.default)
  else do
    let _ ← checkCap charSize (intAsUsize name_length)
    let name ← readNameChars name_length.toNat
    let format ← readI32le
    let _filter ← readI32le
    let address ← readI32le
    let mask_name_length ← readI32le
    let _ ← checkCap charSize (intAsUsize mask_name_length)
    let mask_name ← readNameChars mask_name_length.toNat
    let border_colour ← Rgba.decode
    let hash ← readU32le
    ReadM.pure (uv_set, hash,
      ⟨uv_set, name, format, address, mask_name, border_colour, hash⟩)

/-- The texture-slot loop, unrolled to its fixed five iterations
(`for i in 0..5`, material.rs line 57). -/
def Material.decodeSlots : ReadM (List (Nat × Nat × MaterialTexture)) := do
  let s0 ← Material.decodeSlot
  let s1 ← Material.decodeSlot
  let s2 ← Material.decodeSlot
  let s3 ← Material.decodeSlot
  let s4 ← Material.decodeSlot
  ReadM.pure [s0, s1, s2, s3, s4]

/-- Translation of one iteration of the transform loop of `Material::decode`
(material.rs lines 97-107): a nonzero-test boolean gating a full matrix. -/
def Material.decodeMatrixSlot : ReadM (Bool × Option Matrix) := do
  let v ← readI32le
  if v != 0 then do
    let m ← Matrix.decode
    ReadM.pure (true, some m)
  else
    ReadM.pure (false, none)

/-- The transform loop, unrolled to its fixed five iterations. -/
def Material.decodeMatrixSlots : ReadM (List (Bool × Option Matrix)) := do
  let t0 ← Material.decodeMatrixSlot
  let t1 ← Material.decodeMatrixSlot
  let t2 ← Material.decodeMatrixSlot
  let t3 ← Material.decodeMatrixSlot
  let t4 ← Material.decodeMatrixSlot
  ReadM.pure [t0, t1, t2, t3, t4]

/-- The generator loop, unrolled to its fixed five iterations (material.rs
lines 109-115). -/
def Material.decodeGenerators : ReadM (List Int) := do
  let g0 ← readI32le
  let g1 ← readI32le
  let g2 ← readI32le
  let g3 ← readI32le
  let g4 ← readI32le
  ReadM.pure [g0, g1, g2, g3, g4]

/-- Translation of `Material::decode` (material.rs lines 16-153): the fixed
prefix reads in source order, the five texture slots, the five transform
slots (decoded matrices are dropped — only the booleans are stored, matching
the source, whose local `matrices` array never reaches the `Attributes`),
the five generators, and the trailing envmap fields. -/
def Material.decode : ReadM Material := do
  let flags ← readU32le
  let _name_hash ← readU32le
  let additive_lighting_model ← readBool32
  let colour ← Rgba.decode
  let specular ← Rgba.decode
  let power ← readF32le
  let shading_mode ← readI32le
  let blend ← readBool32
  let blend_modes ← BlendModes.decode
  let alpha_test ← readBool32
  let alpha_test_mode ← AlphaTestMode.decode
  let depth_buffer_write ← readBool32
  let depth_buffer_comparison_mode ← readI32le
  let material_hash ← readU32le
  let owner ← readU32le
  let colour_buffer_write ← readU32le
  let slots ← Material.decodeSlots
  let matrixSlots ← Material.decodeMatrixSlots
  let generators ← Material.decodeGenerators
  let envmap_type ← readI32le
  let planar_sheer_envmap_distance ← readF32le
  ReadM.pure
    { material_hash := material_hash,
      attributes :=
        { flags := flags,
          additive_lighting_model := additive_lighting_model,
          colour := colour,
          specular := specular,
          power := power,
          shading_mode := shading_mode,
          depth_buffer_write := depth_buffer_write,
          depth_buffer_comparison_mode := depth_buffer_comparison_mode,
          blend := blend,
          blend_modes := blend_modes,
          alpha_test := alpha_test,
          alpha_test_mode := alpha_test_mode,
          owner := owner,
          colour_buffer_write := colour_buffer_write,
          use_matrices := matrixSlots.map Prod.fst,
          generators := generators,
          uv_sets := slots.map (fun t => t.1),
          texture_hashes := slots.map (fun t => t.2.1),
          envmap_type := envmap_type,
          planar_sheer_envmap_distance := planar_sheer_envmap_distance },
      textures := slots.map (fun t => t.2.2) }

/-! Byte-layout builders used to state round-trip theorems. -/

/-- Encoding of an `Rgba` whose fields are taken as arbitrary 32-bit words. -/
def rgbaBytes (c : Rgba) : List Nat :=
  u32bytes c.r ++ (u32bytes c.g ++ (u32bytes c.b ++ u32bytes c.a))

/-- The `Rgba` value decoded back from `rgbaBytes`. -/
def rgbaM (c : Rgba) : Rgba := ⟨m32 c.r, m32 c.g, m32 c.b, m32 c.a⟩

/-- Parameters of the fixed prefix of a Material payload, one field per read
of material.rs lines 17-32 (except the discarded name hash, which is still a
parameter because its bytes are present). -/
structure MatPrefixParams where
  flags : Nat
  name_hash : Nat
  additive_lighting_model : Int
  colour : Rgba
  specular : Rgba
  power : Nat
  shading_mode : Int
  blend : Int
  blend_source : Int
  blend_destination : Int
  alpha_test : Int
  alpha_comparision : Int
  alpha_reference : Nat
  depth_buffer_write : Int
  depth_buffer_comparison_mode : Int
  material_hash : Nat
  owner : Nat
  colour_buffer_write : Nat
deriving Repr

/-- Byte layout of the fixed Material prefix, in the decode order of
material.rs lines 17-32. -/
def matPrefixBytes (p : MatPrefixParams) : List Nat :=
  u32bytes p.flags ++ (u32bytes p.name_hash ++
  (i32bytes p.additive_lighting_model ++ (rgbaBytes p.colour ++
  (rgbaBytes p.specular ++ (u32bytes p.power ++ (i32bytes p.shading_mode ++
  (i32bytes p.blend ++ (i32bytes p.blend_source ++
  (i32bytes p.blend_destination ++ (i32bytes p.alpha_test ++
  (i32bytes p.alpha_comparision ++ (u32bytes p.alpha_reference ++
  (i32bytes p.depth_buffer_write ++
  (i32bytes p.depth_buffer_comparison_mode ++ (u32bytes p.material_hash ++
  (u32bytes p.owner ++ u32bytes p.colour_buffer_write))))))))))))))))

/-- Byte layout of one texture slot that declares no texture: a UV-set word
and a name length (intended non-positive). -/
def absentSlotBytes (uv : Nat) (len : Int) : List Nat :=
  u32bytes uv ++ i32bytes len

/-- Byte layout of one transform slot: the use-matrix word, followed by
sixteen matrix words exactly when the decoded boolean will be true. -/
def matrixSlotBytes (v : Int) (m : List Nat) : List Nat :=
  i32bytes v ++ (if wrapI32 v == 0 then [] else u32sBytes m)

/-- Byte layout of the five generator codes and the two trailing envmap
fields of a Material payload. -/
def matTailBytes (g0 g1 g2 g3 g4 et : Int) (dist : Nat) : List Nat :=
  i32bytes g0 ++ (i32bytes g1 ++ (i32bytes g2 ++ (i32bytes g3 ++
  (i32bytes g4 ++ (i32bytes et ++ u32bytes dist)))))

/-- Parameters of one vertex record; only the fields gated on by the flag
word in use contribute bytes. -/
structure VParams where
  px : Nat
  py : Nat
  pz : Nat
  nx : Nat
  ny : Nat
  nz : Nat
  w : Nat
  dr : Nat
  dg : Nat
  db : Nat
  da : Nat
  wt : Nat
  i0 : Nat
  i1 : Nat
  uvs : List (Nat × Nat)
deriving Repr

/-- Encoding of a list of UV pairs. -/
def uvBytes : List (Nat × Nat) → List Nat
  | [] => []
  | q :: qs => u32bytes q.1 ++ (u32bytes q.2 ++ uvBytes qs)

/-- Byte layout of one vertex record under flag word `f`, mirroring the field
order of `Vertex::decode`. -/
def buildVertex (f : Nat) (p : VParams) : List Nat :=
  (if f &&& HAS_VERTEX != 0 then
    u32bytes p.px ++ (u32bytes p.py ++ u32bytes p.pz) else []) ++
  ((if f &&& HAS_NORMAL != 0 then
    u32bytes p.nx ++ (u32bytes p.ny ++ u32bytes p.nz) else []) ++
  ((if f &&& HAS_RECIPROCAL_HOMOGENEOUS_W != 0 then u32bytes p.w else []) ++
  ((if f &&& HAS_DIFFUSE != 0 then [p.dr, p.dg, p.db, p.da] else []) ++
  ((if f &&& HAS_WEIGHT != 0 then u32bytes p.wt else []) ++
  ((if f &&& HAS_INDICES != 0 then u16bytes p.i0 ++ u16bytes p.i1 else []) ++
  uvBytes p.uvs)))))

/-- The vertex value decoded back from `buildVertex f p`. -/
def expectedVertex (f : Nat) (p : VParams) : Vertex :=
  ⟨if f &&& HAS_VERTEX != 0 then some ⟨m32 p.px, m32 p.py, m32 p.pz⟩ else none,
   if f &&& HAS_NORMAL != 0 then some ⟨m32 p.nx, m32 p.ny, m32 p.nz⟩ else none,
   if f &&& HAS_RECIPROCAL_HOMOGENEOUS_W != 0 then some (m32 p.w) else none,
   if f &&& HAS_DIFFUSE != 0 then some ⟨p.dr, p.dg, p.db, p.da⟩ else none,
   if f &&& HAS_WEIGHT != 0 then some (m32 p.wt) else none,
   if f &&& HAS_INDICES != 0 then some (m16 p.i0, m16 p.i1) else none,
   p.uvs.map (fun q => (m32 q.1, m32 q.2))⟩

/-- Concatenated encodings of a list of vertex records under flag word `f`. -/
def vListBytes (f : Nat) : List VParams → List Nat
  | [] => []
  | p :: ps => buildVertex f p ++ vListBytes f ps

/-- Parameters of a ModelPart payload: the 21 header fields in decode order
(the vertex count is implied by `vertexParams`). -/
structure MPParams where
  read_access_flags : Nat
  vertex_read_flags : Nat
  write_access_flags : Nat
  vertex_write_flags : Nat
  hint_flags : Nat
  constant_flags : Nat
  vertex_flags : Nat
  render_flags : Nat
  triangles_count : Nat
  strips_count : Nat
  strip_triangles_count : Nat
  material_hash : Nat
  triangle_index0 : Int
  triangle_index1 : Int
  vertex_index0 : Int
  vertex_index1 : Int
  layer_z : Nat
  floor_flags : Nat
  flags : Nat
  lighting_sid : Nat
  vertexParams : List VParams
deriving Repr

/-- Byte layout of a ModelPart payload: the 21 header fields in the decode
order of model_part.rs lines 41-61, then the vertex records (laid out for the
decoded flag word `m32 flags`). -/
def modelPartBytes (p : MPParams) : List Nat :=
  u32bytes p.read_access_flags ++ (u32bytes p.vertex_read_flags ++
  (u32bytes p.write_access_flags ++ (u32bytes p.vertex_write_flags ++
  (u32bytes p.hint_flags ++ (u32bytes p.constant_flags ++
  (u32bytes p.vertex_flags ++ (u32bytes p.render_flags ++
  (u32bytes p.vertexParams.length ++ (u16bytes p.triangles_count ++
  (u16bytes p.strips_count ++ (u16bytes p.strip_triangles_count ++
  (u32bytes p.material_hash ++ (i32bytes p.triangle_index0 ++
  (i32bytes p.triangle_index1 ++ (i32bytes p.vertex_index0 ++
  (i32bytes p.vertex_index1 ++ (u32bytes p.layer_z ++
  (u32bytes p.floor_flags ++ (u32bytes p.flags ++
  (u32bytes p.lighting_sid ++
  vListBytes (m32 p.flags) p.vertexParams))))))))))))))))))))

/-- The ModelPart value decoded back from `modelPartBytes p`. -/
def expectedModelPart (p : MPParams) : ModelPart :=
  ⟨m32 p.read_access_flags, m32 p.vertex_read_flags, m32 p.write_access_flags,
   m32 p.vertex_write_flags, m32 p.hint_flags, m32 p.constant_flags,
   m32 p.vertex_flags, m32 p.render_flags, m16 p.triangles_count,
   m16 p.strips_count, m16 p.strip_triangles_count, m32 p.material_hash,
   wrapI32 p.triangle_index0, wrapI32 p.triangle_index1,
   wrapI32 p.vertex_index0, wrapI32 p.vertex_index1, m32 p.layer_z,
   m32 p.floor_flags, m32 p.flags, m32 p.lighting_sid,
   p.vertexParams.map (expectedVertex (m32 p.flags))⟩

/-- Byte layout of the first texture slot of the C3 scenario: a UV-set word,
name length 1, one name character, format, filter and address codes, then
the mask-name length (intended negative). -/
def posSlotHeadBytes (uv : Nat) (ch fmt fil addr maskLen : Int) : List Nat :=
  u32bytes uv ++ (i32bytes 1 ++ (i32bytes ch ++ (i32bytes fmt ++
  (i32bytes fil ++ (i32bytes addr ++ i32bytes maskLen)))))

/-- The material value decoded from a payload built of `matPrefixBytes pre`,
slot bytes decoding to the slot triples `slots`, five `matrixSlotBytes`, and
`matTailBytes g0 g1 g2 g3 g4 et dist`. -/
def expectedMaterialWith (pre : MatPrefixParams)
    (slots : List (Nat × Nat × MaterialTexture))
    (mv0 mv1 mv2 mv3 mv4 g0 g1 g2 g3 g4 et : Int) (dist : Nat) : Material :=
  { material_hash := m32 pre.material_hash,
    attributes :=
      { flags := m32 pre.flags,
        additive_lighting_model := wrapI32 pre.additive_lighting_model != 0,
        colour := rgbaM pre.colour,
        specular := rgbaM pre.specular,
        power := m32 pre.power,
        shading_mode := wrapI32 pre.shading_mode,
        depth_buffer_write := wrapI32 pre.depth_buffer_write != 0,
        depth_buffer_comparison_mode :=
          wrapI32 pre.depth_buffer_comparison_mode,
        blend := wrapI32 pre.blend != 0,
        blend_modes :=
          ⟨wrapI32 pre.blend_source, wrapI32 pre.blend_destination⟩,
        alpha_test := wrapI32 pre.alpha_test != 0,
        alpha_test_mode :=
          ⟨wrapI32 pre.alpha_comparision, m32 pre.alpha_reference⟩,
        owner := m32 pre.owner,
        colour_buffer_write := m32 pre.colour_buffer_write,
        use_matrices := [wrapI32 mv0 != 0, wrapI32 mv1 != 0,
          wrapI32 mv2 != 0, wrapI32 mv3 != 0, wrapI32 mv4 != 0],
        generators := [wrapI32 g0, wrapI32 g1, wrapI32 g2, wrapI32 g3,
          wrapI32 g4],
        uv_sets := slots.map (fun t => t.1),
        texture_hashes := slots.map (fun t => t.2.1),
        envmap_type := wrapI32 et,
        planar_sheer_envmap_distance := m32 dist },
    textures := slots.map (fun t => t.2.2) }

/-- All-zero prefix parameters, used by concrete material buffers. -/
def zeroPrefixParams : MatPrefixParams :=
  ⟨0, 0, 0, ⟨0, 0, 0, 0⟩, ⟨0, 0, 0, 0⟩, 0, 0, 0, 0, 0, 0, 0, 0, 0, 0, 0, 0, 0⟩

/-- Concrete material payload whose first texture slot carries UV-set word 7
and name length 0 (an absent slot), all other bytes zero. -/
def c1CexBytes : List Nat :=
  matPrefixBytes zeroPrefixParams ++ (absentSlotBytes 7 0 ++
  (absentSlotBytes 0 0 ++ (absentSlotBytes 0 0 ++ (absentSlotBytes 0 0 ++
  (absentSlotBytes 0 0 ++ (matrixSlotBytes 0 (List.replicate 16 0) ++ (matrixSlotBytes 0 (List.replicate 16 0) ++
  (matrixSlotBytes 0 (List.replicate 16 0) ++ (matrixSlotBytes 0 (List.replicate 16 0) ++ (matrixSlotBytes 0 (List.replicate 16 0) ++
  matTailBytes 0 0 0 0 0 0 0))))))))))

/-- The material value `Material::decode` produces from `c1CexBytes`. -/
def c1CexMaterial : Material :=
  { material_hash := 0,
    attributes :=
      { flags := 0, additive_lighting_model := false, colour := ⟨0, 0, 0, 0⟩,
        specular := ⟨0, 0, 0, 0⟩, power := 0, shading_mode := 0,
        depth_buffer_write := false, depth_buffer_comparison_mode := 0,
        blend := false, blend_modes := ⟨0, 0⟩, alpha_test := false,
        alpha_test_mode := ⟨0, 0⟩, owner := 0, colour_buffer_write := 0,
        use_matrices := [false, false, false, false, false],
        generators := [0, 0, 0, 0, 0], uv_sets := [0, 0, 0, 0, 0],
        texture_hashes := [0, 0, 0, 0, 0], envmap_type := 0,
        planar_sheer_envmap_distance := 0 },
    textures := [MaterialTexture.default, MaterialTexture.default,
      MaterialTexture.default, MaterialTexture.default,
      MaterialTexture.default] }

/-- Byte layout of one complete texture slot with a one-character name
(code point 65), UV-set word 7, zero format/filter/address codes, an empty
mask name, a zero border color and texture hash 9. -/
def fullSlotBytes : List Nat :=
  u32bytes 7 ++ (i32bytes 1 ++ (i32bytes 65 ++ (i32bytes 0 ++ (i32bytes 0 ++
  (i32bytes 0 ++ (i32bytes 0 ++ (rgbaBytes ⟨0, 0, 0, 0⟩ ++ u32bytes 9)))))))

/-- Concrete material payload whose first texture slot is present
(`fullSlotBytes`) and whose remaining four slots are absent. -/
def c10Bytes : List Nat :=
  matPrefixBytes zeroPrefixParams ++ (fullSlotBytes ++
  (absentSlotBytes 0 0 ++ (absentSlotBytes 0 0 ++ (absentSlotBytes 0 0 ++
  (absentSlotBytes 0 0 ++ (matrixSlotBytes 0 (List.replicate 16 0) ++ (matrixSlotBytes 0 (List.replicate 16 0) ++
  (matrixSlotBytes 0 (List.replicate 16 0) ++ (matrixSlotBytes 0 (List.replicate 16 0) ++ (matrixSlotBytes 0 (List.replicate 16 0) ++
  matTailBytes 0 0 0 0 0 0 0))))))))))

/-- The material value `Material::decode` produces from `c10Bytes`. -/
def c10Material : Material :=
  { material_hash := 0,
    attributes :=
      { flags := 0, additive_lighting_model := false, colour := ⟨0, 0, 0, 0⟩,
        specular := ⟨0, 0, 0, 0⟩, power := 0, shading_mode := 0,
        depth_buffer_write := false, depth_buffer_comparison_mode := 0,
        blend := false, blend_modes := ⟨0, 0⟩, alpha_test := false,
        alpha_test_mode := ⟨0, 0⟩, owner := 0, colour_buffer_write := 0,
        use_matrices := [false, false, false, false, false],
        generators := [0, 0, 0, 0, 0], uv_sets := [7, 0, 0, 0, 0],
        texture_hashes := [9, 0, 0, 0, 0], envmap_type := 0,
        planar_sheer_envmap_distance := 0 },
    textures := [⟨7, [65], 0, 0, [], ⟨0, 0, 0, 0⟩, 9⟩,
      MaterialTexture.default, MaterialTexture.default,
      MaterialTexture.default, MaterialTexture.default] }

/-- Concrete vertex parameters used by the C4 witness. -/
def c4VP : VParams := ⟨1, 2, 3, 4, 5, 6, 7, 8, 9, 10, 11, 12, 13, 14, []⟩

/-- Concrete model-part parameters used by the C4 witness: flag word 768
(`HAS_VERTEX | HAS_NORMAL`, zero UV pairs) and one vertex. -/
def c4Params : MPParams :=
  ⟨1, 2, 3, 4, 5, 6, 7, 8, 9, 10, 11, 12, 13, 14, 15, 16, 17, 18, 768, 20,
   [c4VP]⟩

/-- All-zero model-part parameters with no vertices; `modelPartBytes` of this
value is exactly 78 zero bytes. -/
def zeroMPParams : MPParams :=
  ⟨0, 0, 0, 0, 0, 0, 0, 0, 0, 0, 0, 0, 0, 0, 0, 0, 0, 0, 0, 0, []⟩

end SpookyBsp

namespace SpookyBsp

/-! Theorems: basic reader laws. -/

@[simp] theorem ReadM.pure_apply (a : α) (s : List Nat) :
    (Pure.pure a : ReadM α) s = .ok (a, s) := rfl

@[simp] theorem ReadM.pure_def_apply (a : α) (s : List Nat) :
    ReadM.pure a s = .ok (a, s) := rfl

@[simp] theorem ReadM.bind_apply (m : ReadM α) (f : α → ReadM β) (s : List Nat) :
    (m >>= f) s =
      match m s with
      | .ok (a, s1) => f a s1
      | .error e => .error e := rfl

@[simp] theorem ReadM.fail_apply (e : DecodeError) (s : List Nat) :
    (ReadM.fail e : ReadM α) s = .error e := rfl

theorem ReadM.bind_eq_ok {m : ReadM α} {f : α → ReadM β} {s s2 : List Nat} {b : β} :
    (m >>= f) s = .ok (b, s2) ↔
      ∃ a s1, m s = .ok (a, s1) ∧ f a s1 = .ok (b, s2) := by
  simp only [ReadM.bind_apply]
  cases h : m s with
  | ok p =>
    cases p with
    | mk a s1 =>
      constructor
      · intro hf
        exact ⟨a, s1, rfl, hf⟩
      · rintro ⟨a1, s3, heq, hf⟩
        cases heq
        exact hf
  | error e => simp

@[simp] theorem readU8_nil : readU8 [] = .error .shortRead := rfl

@[simp] theorem readU8_cons (b : Nat) (rest : List Nat) :
    readU8 (b :: rest) = .ok (b, rest) := rfl

@[simp] theorem readU16le_append (n : Nat) (rest : List Nat) :
    readU16le (u16bytes n ++ rest) = .ok (m16 n, rest) := by
  simp only [readU16le, u16bytes, List.cons_append, List.nil_append,
    ReadM.bind_apply, readU8_cons, ReadM.pure, m16, Except.ok.injEq,
    Prod.mk.injEq, and_true]
  omega

@[simp] theorem readU32le_append (n : Nat) (rest : List Nat) :
    readU32le (u32bytes n ++ rest) = .ok (m32 n, rest) := by
  simp only [readU32le, u32bytes, List.cons_append, List.nil_append,
    ReadM.bind_apply, readU8_cons, ReadM.pure, m32, Except.ok.injEq,
    Prod.mk.injEq, and_true]
  omega

@[simp] theorem readF32le_append (n : Nat) (rest : List Nat) :
    readF32le (u32bytes n ++ rest) = .ok (m32 n, rest) := by
  simp only [readF32le, readU32le_append]

@[simp] theorem readI32le_append (v : Int) (rest : List Nat) :
    readI32le (i32bytes v ++ rest) = .ok (wrapI32 v, rest) := by
  have h : (v % 4294967296).toNat < 4294967296 := by omega
  simp only [readI32le, i32bytes, ReadM.bind_apply, readU32le_append,
    ReadM.pure, m32, wrapI32, Nat.mod_eq_of_lt h]

@[simp] theorem readBool32_append (v : Int) (rest : List Nat) :
    readBool32 (i32bytes v ++ rest) = .ok (wrapI32 v != 0, rest) := by
  simp only [readBool32, ReadM.bind_apply, readI32le_append, ReadM.pure]

theorem m32_eq_of_lt {n : Nat} (h : n < 4294967296) : m32 n = n :=
  Nat.mod_eq_of_lt h

theorem wrapI32_eq_of {v : Int} (h1 : -2147483648 ≤ v) (h2 : v < 2147483648) :
    wrapI32 v = v := by
  unfold wrapI32 toI32
  split <;> omega

theorem wrapI32_lb (v : Int) : -2147483648 ≤ wrapI32 v := by
  unfold wrapI32 toI32
  split <;> omega

theorem wrapI32_ub (v : Int) : wrapI32 v < 2147483648 := by
  unfold wrapI32 toI32
  split <;> omega

@[simp] theorem wrapI32_zero : wrapI32 0 = 0 := rfl

theorem checkCap_ok {elemSize cap : Nat} (h : elemSize * cap ≤ isizeMax)
    (s : List Nat) : checkCap elemSize cap s = .ok ((), s) := by
  simp [checkCap, h]

theorem checkCap_overflow {elemSize cap : Nat} (h : isizeMax < elemSize * cap)
    (s : List Nat) : checkCap elemSize cap s = .error .capacityOverflow := by
  simp [checkCap]
  omega

/-! Theorems: the `Consumes` combinators. -/

theorem Consumes.bindStep {m : ReadM α} {f : α → ReadM β} {e1 e2 : List Nat}
    {a : α} {b : β} (h1 : Consumes m e1 a) (h2 : Consumes (f a) e2 b) :
    Consumes (m >>= f) (e1 ++ e2) b := by
  intro rest
  rw [List.append_assoc]
  simp only [ReadM.bind_apply, h1 (e2 ++ rest), h2 rest]

theorem Consumes.pureStep (a : α) : Consumes (ReadM.pure a) [] a :=
  fun _ => rfl

theorem Consumes.eq_enc {m : ReadM α} {e1 e2 : List Nat} {a : α}
    (h : Consumes m e1 a) (he : e2 = e1) : Consumes m e2 a := by
  rw [he]
  exact h

theorem Consumes.mapStep {m : ReadM α} {e : List Nat} {a : α} (g : α → β)
    (h : Consumes m e a) : Consumes (m >>= fun x => ReadM.pure (g x)) e (g a) := by
  intro rest
  simp only [ReadM.bind_apply, h rest, ReadM.pure_def_apply]

theorem Consumes.run_nil {m : ReadM α} {e : List Nat} {a : α}
    (h : Consumes m e a) : m e = .ok (a, []) := by
  have hx := h []
  simpa using hx

theorem Consumes.bind_err {m : ReadM α} {f : α → ReadM β} {e1 : List Nat}
    {a : α} {s : List Nat} {err : DecodeError} (h1 : Consumes m e1 a)
    (h2 : f a s = .error err) : (m >>= f) (e1 ++ s) = .error err := by
  simp only [ReadM.bind_apply, h1 s, h2]

theorem Consumes.bind_err_nil {m : ReadM α} {f : α → ReadM β} {a : α}
    {s : List Nat} {err : DecodeError} (h1 : Consumes m [] a)
    (h2 : f a s = .error err) : (m >>= f) s = .error err := by
  have hx := Consumes.bind_err h1 h2
  simpa using hx

theorem consumes_readU8 (b : Nat) : Consumes readU8 [b] b :=
  fun _ => rfl

theorem consumes_readU16le (n : Nat) : Consumes readU16le (u16bytes n) (m16 n) :=
  fun rest => readU16le_append n rest

theorem consumes_readU32le (n : Nat) : Consumes readU32le (u32bytes n) (m32 n) :=
  fun rest => readU32le_append n rest

theorem consumes_readF32le (n : Nat) : Consumes readF32le (u32bytes n) (m32 n) :=
  fun rest => readF32le_append n rest

theorem consumes_readI32le (v : Int) : Consumes readI32le (i32bytes v) (wrapI32 v) :=
  fun rest => readI32le_append v rest

theorem consumes_readBool32 (v : Int) :
    Consumes readBool32 (i32bytes v) (wrapI32 v != 0) :=
  fun rest => readBool32_append v rest

theorem consumes_checkCap {elemSize cap : Nat} (h : elemSize * cap ≤ isizeMax) :
    Consumes (checkCap elemSize cap) [] () :=
  fun rest => checkCap_ok h rest

theorem consumes_rgba (c : Rgba) : Consumes Rgba.decode (rgbaBytes c) (rgbaM c) := by
  intro rest
  simp [Rgba.decode, rgbaBytes, rgbaM, ReadM.pure, List.append_assoc]

theorem consumes_rgbaU8 (r g b a : Nat) :
    Consumes Rgba.decodeU8 [r, g, b, a] ⟨r, g, b, a⟩ := by
  intro rest
  simp [Rgba.decodeU8, ReadM.pure]

theorem consumes_vector3 (x y z : Nat) :
    Consumes Vector3.decode (u32bytes x ++ (u32bytes y ++ u32bytes z))
      ⟨m32 x, m32 y, m32 z⟩ := by
  intro rest
  simp [Vector3.decode, ReadM.pure, List.append_assoc]

theorem consumes_readF32s (l : List Nat) :
    Consumes (readF32s l.length) (u32sBytes l) (l.map m32) := by
  induction l with
  | nil => exact fun rest => rfl
  | cons x xs ih =>
    intro rest
    have hx := readF32le_append x (u32sBytes xs ++ rest)
    simp only [List.length_cons, List.map_cons, u32sBytes,
      List.append_assoc, readF32s, ReadM.bind_apply, hx, ih rest,
      ReadM.pure_def_apply]

theorem consumes_blend_modes (a b : Int) :
    Consumes BlendModes.decode (i32bytes a ++ i32bytes b)
      ⟨wrapI32 a, wrapI32 b⟩ := by
  intro rest
  simp [BlendModes.decode, ReadM.pure, List.append_assoc]

theorem consumes_alpha_test_mode (a : Int) (b : Nat) :
    Consumes AlphaTestMode.decode (i32bytes a ++ u32bytes b)
      ⟨wrapI32 a, m32 b⟩ := by
  intro rest
  simp [AlphaTestMode.decode, ReadM.pure, List.append_assoc]

theorem consumes_readIndexPair (a b : Nat) :
    Consumes readIndexPair (u16bytes a ++ u16bytes b) (m16 a, m16 b) := by
  intro rest
  simp [readIndexPair, ReadM.pure, List.append_assoc]

theorem consumes_readUVs (l : List (Nat × Nat)) :
    Consumes (readUVs l.length) (uvBytes l)
      (l.map (fun q => (m32 q.1, m32 q.2))) := by
  induction l with
  | nil => exact fun rest => rfl
  | cons q qs ih =>
    intro rest
    simp only [List.length_cons, List.map_cons, uvBytes, List.append_assoc,
      readUVs, ReadM.bind_apply, readF32le_append, ih rest,
      ReadM.pure_def_apply]

/-! Theorems: length-driven success and short-read lemmas. -/

theorem readU8_ok_of_le {s : List Nat} (h : 1 ≤ s.length) :
    ∃ v, readU8 s = .ok (v, s.drop 1) := by
  rcases s with _ | ⟨a, t⟩
  · simp at h
  · exact ⟨a, rfl⟩

theorem readU16le_ok_of_le {s : List Nat} (h : 2 ≤ s.length) :
    ∃ v, readU16le s = .ok (v, s.drop 2) := by
  rcases s with _ | ⟨a, _ | ⟨b, t⟩⟩ <;> simp at h
  · exact ⟨a + 256 * b, rfl⟩

theorem readU32le_ok_of_le {s : List Nat} (h : 4 ≤ s.length) :
    ∃ v, readU32le s = .ok (v, s.drop 4) := by
  rcases s with _ | ⟨a, _ | ⟨b, _ | ⟨c, _ | ⟨d, t⟩⟩⟩⟩ <;> simp at h
  · exact ⟨a + 256 * b + 65536 * c + 16777216 * d, rfl⟩

theorem readU32le_err_of_lt {s : List Nat} (h : s.length < 4) :
    readU32le s = .error .shortRead := by
  rcases s with _ | ⟨a, _ | ⟨b, _ | ⟨c, _ | ⟨d, t⟩⟩⟩⟩ <;> first
    | rfl
    | (simp only [List.length_cons] at h; omega)

theorem readF32le_ok_of_le {s : List Nat} (h : 4 ≤ s.length) :
    ∃ v, readF32le s = .ok (v, s.drop 4) := readU32le_ok_of_le h

theorem readF32le_err_of_lt {s : List Nat} (h : s.length < 4) :
    readF32le s = .error .shortRead := readU32le_err_of_lt h

theorem readI32le_ok_of_le {s : List Nat} (h : 4 ≤ s.length) :
    ∃ v, readI32le s = .ok (v, s.drop 4) := by
  obtain ⟨v, hv⟩ := readU32le_ok_of_le h
  exact ⟨toI32 v, by simp [readI32le, hv, ReadM.pure]⟩

theorem rgb_decodeU8_ok_of_le {s : List Nat} (h : 3 ≤ s.length) :
    ∃ c, Rgb.decodeU8 s = .ok (c, s.drop 3) := by
  rcases s with _ | ⟨a, _ | ⟨b, _ | ⟨c, t⟩⟩⟩ <;>
    first
      | (simp only [List.length_cons, List.length_nil] at h; omega)
      | exact ⟨⟨a, b, c⟩, rfl⟩

theorem vector3_decode_ok_of_le {s : List Nat} (h : 12 ≤ s.length) :
    ∃ v, Vector3.decode s = .ok (v, s.drop 12) := by
  obtain ⟨x, hx⟩ := readF32le_ok_of_le (s := s) (by omega)
  obtain ⟨y, hy⟩ := readF32le_ok_of_le (s := s.drop 4) (by simp; omega)
  obtain ⟨z, hz⟩ := readF32le_ok_of_le (s := (s.drop 4).drop 4) (by simp; omega)
  simp only [List.drop_drop, Nat.reduceAdd] at hy hz
  refine ⟨⟨x, y, z⟩, ?_⟩
  simp [Vector3.decode, hx, hy, hz, ReadM.pure]

theorem vector3_decode_err_of_lt {s : List Nat} (h : s.length < 12) :
    Vector3.decode s = .error .shortRead := by
  by_cases h4 : s.length < 4
  · simp [Vector3.decode, readF32le_err_of_lt h4]
  · obtain ⟨x, hx⟩ := readF32le_ok_of_le (s := s) (by omega)
    by_cases h8 : s.length < 8
    · have he : readF32le (s.drop 4) = .error .shortRead :=
        readF32le_err_of_lt (by simp; omega)
      simp [Vector3.decode, hx, he]
    · obtain ⟨y, hy⟩ := readF32le_ok_of_le (s := s.drop 4) (by simp; omega)
      have he : readF32le ((s.drop 4).drop 4) = .error .shortRead :=
        readF32le_err_of_lt (by simp; omega)
      simp only [List.drop_drop, Nat.reduceAdd] at hy he
      simp [Vector3.decode, hx, hy, he]

theorem bbox_decode_ok_of_le {s : List Nat} (h : 24 ≤ s.length) :
    ∃ v, BoundingBox.decode s = .ok (v, s.drop 24) := by
  obtain ⟨mn, hmn⟩ := vector3_decode_ok_of_le (s := s) (by omega)
  obtain ⟨mx, hmx⟩ := vector3_decode_ok_of_le (s := s.drop 12) (by simp; omega)
  refine ⟨⟨mn, mx⟩, ?_⟩
  simp [BoundingBox.decode, hmn, hmx, ReadM.pure, List.drop_drop]

theorem bbox_decode_err_of_lt {s : List Nat} (h : s.length < 24) :
    BoundingBox.decode s = .error .shortRead := by
  by_cases h12 : s.length < 12
  · simp [BoundingBox.decode, vector3_decode_err_of_lt h12]
  · obtain ⟨mn, hmn⟩ := vector3_decode_ok_of_le (s := s) (by omega)
    have he : Vector3.decode (s.drop 12) = .error .shortRead :=
      vector3_decode_err_of_lt (by simp; omega)
    simp [BoundingBox.decode, hmn, he]

theorem floor_decode_ok_of_le {s : List Nat} (h : 28 ≤ s.length) :
    ∃ fl, Floor.decode s = .ok (fl, s.drop 28) := by
  obtain ⟨o, ho⟩ := readU32le_ok_of_le (s := s) (by omega)
  obtain ⟨bb, hbb⟩ := bbox_decode_ok_of_le (s := s.drop 4) (by simp; omega)
  refine ⟨⟨o, bb⟩, ?_⟩
  simp [Floor.decode, ho, hbb, ReadM.pure, List.drop_drop]

theorem floor_decode_err_of_lt {s : List Nat} (h : s.length < 28) :
    Floor.decode s = .error .shortRead := by
  by_cases h4 : s.length < 4
  · simp [Floor.decode, readU32le_err_of_lt h4]
  · obtain ⟨o, ho⟩ := readU32le_ok_of_le (s := s) (by omega)
    have he : BoundingBox.decode (s.drop 4) = .error .shortRead :=
      bbox_decode_err_of_lt (by simp; omega)
    simp [Floor.decode, ho, he]

/-! Theorems: world decoding (claims C8 and C9). -/

@[simp] theorem decodeFloors_zero : decodeFloors 0 = ReadM.pure [] := rfl

theorem decodeFloors_succ (n : Nat) :
    decodeFloors (n + 1) =
      Floor.decode >>= fun f => decodeFloors n >>= fun fs => ReadM.pure (f :: fs) := rfl

theorem decodeFloors_three_err {s1 s2 s3 : List Nat} (h1 : s1.length = 28)
    (h2 : s2.length = 28) (h3 : s3.length < 28) :
    decodeFloors 3 (s1 ++ (s2 ++ s3)) = .error .shortRead := by
  obtain ⟨f1, hf1⟩ := floor_decode_ok_of_le (s := s1 ++ (s2 ++ s3)) (by simp [h1])
  have hd1 : (s1 ++ (s2 ++ s3)).drop 28 = s2 ++ s3 := by
    rw [← h1, List.drop_left]
  obtain ⟨f2, hf2⟩ := floor_decode_ok_of_le (s := s2 ++ s3) (by simp [h2])
  have hd2 : (s2 ++ s3).drop 28 = s3 := by
    rw [← h2, List.drop_left]
  have hf3 : Floor.decode s3 = .error .shortRead := floor_decode_err_of_lt h3
  rw [show (3 : Nat) = 2 + 1 from rfl, decodeFloors_succ,
    show (2 : Nat) = 1 + 1 from rfl, decodeFloors_succ,
    show (1 : Nat) = 0 + 1 from rfl, decodeFloors_succ]
  rw [hd1] at hf1
  rw [hd2] at hf2
  simp only [ReadM.bind_apply, hf1, hf2, hf3]

/-- Claim C8: a World payload declaring a floor count of 3 whose bytes stop
one byte short of the third 28-byte Floor record fails with a short read
raised while decoding the third Floor — the first two Floor records decode
successfully and the third fails — and the same short-read error is the
result of the whole `World::decode` call. -/
theorem world_truncated_third_floor (s0 s1 s2 s3 : List Nat)
    (h0 : s0.length = 7) (h1 : s1.length = 28) (h2 : s2.length = 28)
    (h3 : s3.length = 27) :
    World.decode (s0 ++ (i32bytes 3 ++ (s1 ++ (s2 ++ s3)))) = .error .shortRead ∧
    (∃ f1, Floor.decode (s1 ++ (s2 ++ s3)) = .ok (f1, s2 ++ s3)) ∧
    (∃ f2, Floor.decode (s2 ++ s3) = .ok (f2, s3)) ∧
    Floor.decode s3 = .error .shortRead := by
  have hfloors : decodeFloors 3 (s1 ++ (s2 ++ s3)) = .error .shortRead :=
    decodeFloors_three_err h1 h2 (by omega)
  obtain ⟨f1, hf1⟩ := floor_decode_ok_of_le (s := s1 ++ (s2 ++ s3)) (by simp [h1])
  have hd1 : (s1 ++ (s2 ++ s3)).drop 28 = s2 ++ s3 := by
    rw [← h1, List.drop_left]
  obtain ⟨f2, hf2⟩ := floor_decode_ok_of_le (s := s2 ++ s3) (by simp [h2])
  have hd2 : (s2 ++ s3).drop 28 = s3 := by
    rw [← h2, List.drop_left]
  rw [hd1] at hf1
  rw [hd2] at hf2
  refine ⟨?_, ⟨f1, hf1⟩, ⟨f2, hf2⟩, floor_decode_err_of_lt (by omega)⟩
  obtain ⟨v0, hv0⟩ := readU32le_ok_of_le
    (s := s0 ++ (i32bytes 3 ++ (s1 ++ (s2 ++ s3))))
    (by simp only [List.length_append, h0]; omega)
  obtain ⟨amb, hamb⟩ := rgb_decodeU8_ok_of_le
    (s := (s0 ++ (i32bytes 3 ++ (s1 ++ (s2 ++ s3)))).drop 4)
    (by simp only [List.length_drop, List.length_append, h0]; omega)
  have hd7 : ((s0 ++ (i32bytes 3 ++ (s1 ++ (s2 ++ s3)))).drop 4).drop 3 =
      i32bytes 3 ++ (s1 ++ (s2 ++ s3)) := by
    rw [List.drop_drop, show (3 + 4 : Nat) = 7 from rfl, ← h0, List.drop_left]
  rw [hd7] at hamb
  have h3val : wrapI32 3 = 3 := rfl
  have hcap := @checkCap_ok floorSize (intAsUsize 3)
    (by decide)
  have ht : (3 : Int).toNat = 3 := rfl
  simp only [World.decode, ReadM.bind_apply, hv0, hamb, readI32le_append,
    h3val, hcap, ht, hfloors]

/-- Witness for claim C8: the truncated-world theorem applied to a concrete
buffer (7 prefix bytes, floor count 3, two full 28-byte floors, 27 bytes of
the third floor). -/
theorem world_truncated_third_floor_witness :
    World.decode (List.replicate 7 0 ++ (i32bytes 3 ++ (List.replicate 28 1 ++
      (List.replicate 28 2 ++ List.replicate 27 3)))) = .error .shortRead ∧
    (∃ f1, Floor.decode (List.replicate 28 1 ++
      (List.replicate 28 2 ++ List.replicate 27 3)) =
      .ok (f1, List.replicate 28 2 ++ List.replicate 27 3)) ∧
    (∃ f2, Floor.decode (List.replicate 28 2 ++ List.replicate 27 3) =
      .ok (f2, List.replicate 27 3)) ∧
    Floor.decode (List.replicate 27 3) = .error .shortRead :=
  world_truncated_third_floor _ _ _ _ (by decide) (by decide) (by decide)
    (by decide)

/-- Claim C9: a World payload declaring a floor count of 0 decodes
successfully to a world with an empty floor list, and consumes exactly the
fixed prefix (flags word, 3 ambient color bytes, floor count) plus the fixed
suffix (zone count and four 32-bit presence booleans, each true exactly when
nonzero), leaving all following bytes untouched. -/
theorem world_zero_floors_round_trip (flags c1 c2 c3 : Nat)
    (zone b1 b2 b3 b4 : Int) (rest : List Nat) :
    World.decode (u32bytes flags ++ (c1 :: c2 :: c3 :: (i32bytes 0 ++
      (i32bytes zone ++ (i32bytes b1 ++ (i32bytes b2 ++ (i32bytes b3 ++
      (i32bytes b4 ++ rest)))))))) =
      .ok (⟨m32 flags, ⟨c1, c2, c3, opaqueAlpha⟩, [], wrapI32 zone,
        wrapI32 b1 != 0, wrapI32 b2 != 0, wrapI32 b3 != 0, wrapI32 b4 != 0⟩,
        rest) := by
  have hcap := @checkCap_ok floorSize (intAsUsize 0)
    (by decide)
  have ht : (0 : Int).toNat = 0 := rfl
  simp only [World.decode, ReadM.bind_apply, readU32le_append, Rgb.decodeU8,
    Rgb.toRgba, readU8_cons, readI32le_append, wrapI32_zero, hcap, ht,
    decodeFloors_zero, readBool32_append, ReadM.pure_def_apply]

/-! Theorems: vertex decoding (claims C6 and C7). -/

theorem decodeIf_ok_elim {cond : Bool} {r : ReadM α} {s s1 : List Nat}
    {o : Option α} (h : decodeIf cond r s = .ok (o, s1)) : o.isSome = cond := by
  cases cond with
  | false =>
    simp only [decodeIf, Bool.false_eq_true, if_false, ReadM.pure_def_apply,
      Except.ok.injEq, Prod.mk.injEq] at h
    rw [← h.1]
    rfl
  | true =>
    simp only [decodeIf, if_true] at h
    obtain ⟨a, s2, _, hp⟩ := ReadM.bind_eq_ok.mp h
    simp only [ReadM.pure_def_apply, Except.ok.injEq, Prod.mk.injEq] at hp
    rw [← hp.1]
    rfl

theorem readUVs_length {n : Nat} {s s1 : List Nat} {l : List (Nat × Nat)}
    (h : readUVs n s = .ok (l, s1)) : l.length = n := by
  induction n generalizing s s1 l with
  | zero =>
    simp only [readUVs, ReadM.pure_def_apply, Except.ok.injEq,
      Prod.mk.injEq] at h
    rw [← h.1]
    rfl
  | succ n ih =>
    rw [readUVs] at h
    obtain ⟨u, t1, hu, h⟩ := ReadM.bind_eq_ok.mp h
    obtain ⟨w, t2, hw, h⟩ := ReadM.bind_eq_ok.mp h
    obtain ⟨uvs, t3, huvs, h⟩ := ReadM.bind_eq_ok.mp h
    simp only [ReadM.pure_def_apply, Except.ok.injEq, Prod.mk.injEq] at h
    rw [← h.1, List.length_cons, ih huvs]

theorem and_one_shift_ne_eq_testBit (f i : Nat) :
    (f &&& (1 <<< i) != 0) = f.testBit i := by
  rw [Nat.shiftLeft_eq, one_mul, Nat.and_two_pow]
  cases h : f.testBit i <;> simp

/-- Claim C6: for every flag word, a successfully decoded Vertex has its
`normal` field present exactly when bit 9 of the flag word is set,
independently of every other bit (the flag word is universally quantified
and nothing else about it is assumed). -/
theorem vertex_normal_iff_bit9 (f : Nat) (s s1 : List Nat) (v : Vertex)
    (h : Vertex.decode f s = .ok (v, s1)) :
    v.normal.isSome = f.testBit 9 := by
  unfold Vertex.decode at h
  obtain ⟨c1, t1, h1, h⟩ := ReadM.bind_eq_ok.mp h
  obtain ⟨c2, t2, h2, h⟩ := ReadM.bind_eq_ok.mp h
  obtain ⟨c3, t3, h3, h⟩ := ReadM.bind_eq_ok.mp h
  obtain ⟨c4, t4, h4, h⟩ := ReadM.bind_eq_ok.mp h
  obtain ⟨c5, t5, h5, h⟩ := ReadM.bind_eq_ok.mp h
  obtain ⟨c6, t6, h6, h⟩ := ReadM.bind_eq_ok.mp h
  obtain ⟨c7, t7, h7, h⟩ := ReadM.bind_eq_ok.mp h
  obtain ⟨c8, t8, h8, h⟩ := ReadM.bind_eq_ok.mp h
  simp only [ReadM.pure_def_apply, Except.ok.injEq, Prod.mk.injEq] at h
  rw [← h.1]
  have hn := decodeIf_ok_elim h2
  rw [show (Vertex.mk c1 c2 c3 c4 c5 c6 c8).normal = c2 from rfl, hn]
  unfold HAS_NORMAL
  exact and_one_shift_ne_eq_testBit f 9

/-- Witness for claim C6: a vertex decoded under flag word 512 (bit 9 only)
from twelve bytes has a present normal, matching bit 9 of 512. -/
theorem vertex_normal_iff_bit9_witness :
    (Vertex.mk none (some ⟨1, 2, 3⟩) none none none none []).normal.isSome =
      (512 : Nat).testBit 9 :=
  vertex_normal_iff_bit9 512 (u32bytes 1 ++ (u32bytes 2 ++ u32bytes 3)) []
    (Vertex.mk none (some ⟨1, 2, 3⟩) none none none none []) (by decide)

/-- Claim C7: for every flag word, a successfully decoded Vertex carries
exactly `flags &&& 0xFF` UV pairs; when that count is zero the sequence is
empty and the UV loop consumes no bytes; and the UV pairs are decoded in
stream order (the decoded list is the image, in order, of the encoded
pairs). -/
theorem vertex_uv_count (f : Nat) (s s1 : List Nat) (v : Vertex)
    (h : Vertex.decode f s = .ok (v, s1)) :
    v.uvs.length = f &&& UV_COUNT_MASK ∧
    (f &&& UV_COUNT_MASK = 0 → v.uvs = []) ∧
    (∀ t, readUVs 0 t = .ok ([], t)) ∧
    (∀ (ps : List (Nat × Nat)) t, readUVs ps.length (uvBytes ps ++ t) =
      .ok (ps.map (fun q => (m32 q.1, m32 q.2)), t)) := by
  unfold Vertex.decode at h
  obtain ⟨c1, t1, h1, h⟩ := ReadM.bind_eq_ok.mp h
  obtain ⟨c2, t2, h2, h⟩ := ReadM.bind_eq_ok.mp h
  obtain ⟨c3, t3, h3, h⟩ := ReadM.bind_eq_ok.mp h
  obtain ⟨c4, t4, h4, h⟩ := ReadM.bind_eq_ok.mp h
  obtain ⟨c5, t5, h5, h⟩ := ReadM.bind_eq_ok.mp h
  obtain ⟨c6, t6, h6, h⟩ := ReadM.bind_eq_ok.mp h
  obtain ⟨c7, t7, h7, h⟩ := ReadM.bind_eq_ok.mp h
  obtain ⟨c8, t8, h8, h⟩ := ReadM.bind_eq_ok.mp h
  simp only [ReadM.pure_def_apply, Except.ok.injEq, Prod.mk.injEq] at h
  rw [← h.1]
  refine ⟨readUVs_length h8, ?_, fun t => rfl, fun ps t => consumes_readUVs ps t⟩
  intro h0
  rw [h0] at h8
  simp only [readUVs, ReadM.pure_def_apply, Except.ok.injEq, Prod.mk.injEq] at h8
  rw [show (Vertex.mk c1 c2 c3 c4 c5 c6 c8).uvs = c8 from rfl, ← h8.1]

/-- Witness for claim C7: a vertex decoded under flag word 2 carries exactly
two UV pairs (2 = 2 &&& 0xFF), in stream order. -/
theorem vertex_uv_count_witness :
    (Vertex.mk none none none none none none [(1, 2), (3, 4)]).uvs.length =
      2 &&& UV_COUNT_MASK ∧
    ((2 : Nat) &&& UV_COUNT_MASK = 0 →
      (Vertex.mk none none none none none none [(1, 2), (3, 4)]).uvs = []) ∧
    (∀ t, readUVs 0 t = .ok ([], t)) ∧
    (∀ (ps : List (Nat × Nat)) t, readUVs ps.length (uvBytes ps ++ t) =
      .ok (ps.map (fun q => (m32 q.1, m32 q.2)), t)) :=
  vertex_uv_count 2 (uvBytes [(1, 2), (3, 4)]) []
    (Vertex.mk none none none none none none [(1, 2), (3, 4)]) (by decide)

/-! Theorems: chunk header decoding (claim C5). -/

/-- Claim C5: `ChunkHeader::decode` reads three signed 32-bit fields — type
code, size, version — in that order. The type-code resolver maps 1010 to the
Materials chunk type and 999999 (a code outside the closed enumeration) to
`none`; whenever the resolver succeeds, the decoded header stores the
resolved type with size and version uninterpreted, and whenever it returns
`none` the decode fails with the unrecognized-chunk-type error before size
or version are read. -/
theorem chunk_header_decode :
    ChunkType.tryFrom 1010 = some ChunkType.Materials ∧
    ChunkType.tryFrom 999999 = none ∧
    (∀ (c size version : Int) (rest : List Nat) (ct : ChunkType),
      ChunkType.tryFrom (wrapI32 c) = some ct →
      ChunkHeader.decode (i32bytes c ++ (i32bytes size ++
        (i32bytes version ++ rest))) =
        .ok (⟨ct, wrapI32 size, wrapI32 version⟩, rest)) ∧
    (∀ (c : Int) (rest2 : List Nat), ChunkType.tryFrom (wrapI32 c) = none →
      ChunkHeader.decode (i32bytes c ++ rest2) =
        .error (.unrecognizedChunkType (wrapI32 c))) := by
  refine ⟨by decide, by decide, ?_, ?_⟩
  · intro c size version rest ct hsome
    simp only [ChunkHeader.decode, ReadM.bind_apply, readI32le_append, hsome,
      ReadM.pure_def_apply]
  · intro c rest2 hnone
    simp only [ChunkHeader.decode, ReadM.bind_apply, readI32le_append, hnone,
      ReadM.fail_apply]

/-- Witness for claim C5: the header theorem applied at type code 1010 with
size 5 and version 7 (decoding a Materials header), and at the unknown type
code 999999 (failing with the unrecognized-chunk-type error). -/
theorem chunk_header_decode_witness :
    ChunkHeader.decode (i32bytes 1010 ++ (i32bytes 5 ++ (i32bytes 7 ++ []))) =
      .ok (⟨.Materials, wrapI32 5, wrapI32 7⟩, []) ∧
    ChunkHeader.decode (i32bytes 999999 ++ []) =
      .error (.unrecognizedChunkType (wrapI32 999999)) :=
  ⟨chunk_header_decode.2.2.1 1010 5 7 [] ChunkType.Materials (by decide),
   chunk_header_decode.2.2.2 999999 [] (by decide)⟩

/-! Theorems: model part decoding (claim C4). -/

theorem consumes_decodeIf {r : ReadM α} {enc : List Nat} {val : α} (c : Bool)
    (h : Consumes r enc val) :
    Consumes (decodeIf c r) (if c then enc else [])
      (if c then some val else none) := by
  cases c
  · intro rest
    simp [decodeIf]
  · intro rest
    simp [decodeIf, h rest]

theorem consumes_buildVertex (f : Nat) (p : VParams)
    (huv : p.uvs.length = f &&& UV_COUNT_MASK) :
    Consumes (Vertex.decode f) (buildVertex f p) (expectedVertex f p) := by
  have hmask : f &&& UV_COUNT_MASK ≤ 255 := Nat.and_le_right
  have hcap : uvPairSize * (f &&& UV_COUNT_MASK) ≤ isizeMax := by
    unfold uvPairSize isizeMax
    omega
  exact Consumes.eq_enc
    (Consumes.bindStep
      (consumes_decodeIf _ (consumes_vector3 p.px p.py p.pz))
      (Consumes.bindStep (consumes_decodeIf _ (consumes_vector3 p.nx p.ny p.nz))
      (Consumes.bindStep (consumes_decodeIf _ (consumes_readU32le p.w))
      (Consumes.bindStep
        (consumes_decodeIf _ (consumes_rgbaU8 p.dr p.dg p.db p.da))
      (Consumes.bindStep (consumes_decodeIf _ (consumes_readF32le p.wt))
      (Consumes.bindStep (consumes_decodeIf _ (consumes_readIndexPair p.i0 p.i1))
      (Consumes.bindStep (consumes_checkCap hcap)
      (Consumes.bindStep (huv ▸ consumes_readUVs p.uvs)
      (Consumes.pureStep _)))))))))
    (by simp [buildVertex, List.append_assoc])

theorem consumes_decodeVertices (f : Nat) (ps : List VParams)
    (h : ∀ q ∈ ps, q.uvs.length = f &&& UV_COUNT_MASK) :
    Consumes (decodeVertices f ps.length) (vListBytes f ps)
      (ps.map (expectedVertex f)) := by
  induction ps with
  | nil => exact fun rest => rfl
  | cons p ps ih =>
    have hp := h p (List.mem_cons_self p ps)
    have hps := fun q hq => h q (List.mem_cons_of_mem _ hq)
    exact Consumes.eq_enc
      (Consumes.bindStep (consumes_buildVertex f p hp)
        (Consumes.bindStep (ih hps) (Consumes.pureStep _)))
      (by simp [vListBytes, List.append_assoc])

theorem consumes_decodeVertices_count (f n : Nat) (ps : List VParams)
    (hn : n = ps.length) (h : ∀ q ∈ ps, q.uvs.length = f &&& UV_COUNT_MASK) :
    Consumes (decodeVertices f n) (vListBytes f ps)
      (ps.map (expectedVertex f)) := by
  rw [hn]
  exact consumes_decodeVertices f ps h

theorem consumes_modelPart (p : MPParams)
    (hvc : p.vertexParams.length < 4294967296)
    (huv : ∀ q ∈ p.vertexParams,
      q.uvs.length = m32 p.flags &&& UV_COUNT_MASK) :
    Consumes ModelPart.decode (modelPartBytes p) (expectedModelPart p) := by
  have hcap : vertexSize * m32 p.vertexParams.length ≤ isizeMax := by
    have : m32 p.vertexParams.length < 4294967296 := by
      unfold m32
      omega
    unfold vertexSize isizeMax
    omega
  have hmain : Consumes ModelPart.decode (modelPartBytes p)
      (expectedModelPart p) := by
    exact Consumes.eq_enc
      (Consumes.bindStep (consumes_readU32le p.read_access_flags)
        (Consumes.bindStep (consumes_readU32le p.vertex_read_flags)
        (Consumes.bindStep (consumes_readU32le p.write_access_flags)
        (Consumes.bindStep (consumes_readU32le p.vertex_write_flags)
        (Consumes.bindStep (consumes_readU32le p.hint_flags)
        (Consumes.bindStep (consumes_readU32le p.constant_flags)
        (Consumes.bindStep (consumes_readU32le p.vertex_flags)
        (Consumes.bindStep (consumes_readU32le p.render_flags)
        (Consumes.bindStep (consumes_readU32le p.vertexParams.length)
        (Consumes.bindStep (consumes_readU16le p.triangles_count)
        (Consumes.bindStep (consumes_readU16le p.strips_count)
        (Consumes.bindStep (consumes_readU16le p.strip_triangles_count)
        (Consumes.bindStep (consumes_readU32le p.material_hash)
        (Consumes.bindStep (consumes_readI32le p.triangle_index0)
        (Consumes.bindStep (consumes_readI32le p.triangle_index1)
        (Consumes.bindStep (consumes_readI32le p.vertex_index0)
        (Consumes.bindStep (consumes_readI32le p.vertex_index1)
        (Consumes.bindStep (consumes_readU32le p.layer_z)
        (Consumes.bindStep (consumes_readU32le p.floor_flags)
        (Consumes.bindStep (consumes_readU32le p.flags)
        (Consumes.bindStep (consumes_readU32le p.lighting_sid)
        (Consumes.bindStep (consumes_checkCap hcap)
        (Consumes.bindStep
          (consumes_decodeVertices_count (m32 p.flags)
            (m32 p.vertexParams.length) p.vertexParams
            (m32_eq_of_lt hvc) huv)
        (Consumes.pureStep _))))))))))))))))))))))))
      (by simp [modelPartBytes, List.append_assoc])
  exact hmain

/-- Claim C4 (amended: the enumerated header has 21 fields, not 20): a
ModelPart payload decodes its fixed header in the stated order — 8 unsigned
32-bit flag/mode words, the 32-bit vertex count, three 16-bit counts, the
material hash, two triangle-index bounds, two vertex-index bounds, layer-z,
floor flags, part flags, lighting id — and then exactly `vertexParams.length`
(the declared vertex count) vertex records, each decoded with the part's
`flags` word as the layout selector. -/
theorem model_part_round_trip (p : MPParams) (rest : List Nat)
    (hvc : p.vertexParams.length < 4294967296)
    (huv : ∀ q ∈ p.vertexParams,
      q.uvs.length = m32 p.flags &&& UV_COUNT_MASK) :
    ModelPart.decode (modelPartBytes p ++ rest) =
      .ok (expectedModelPart p, rest) :=
  consumes_modelPart p hvc huv rest

/-- Witness for claim C4: the round-trip theorem applied to a concrete
model part with flag word 768 and one vertex. -/
theorem model_part_round_trip_witness :
    ModelPart.decode (modelPartBytes c4Params ++ []) =
      .ok (expectedModelPart c4Params, []) :=
  model_part_round_trip c4Params [] (by decide) (by decide)

/-! Theorems: material decoding (claims C1, C3 and C10). -/

theorem ReadM.bind_error {m : ReadM α} {f : α → ReadM β} {s : List Nat}
    {e : DecodeError} (h : m s = .error e) : (m >>= f) s = .error e := by
  simp only [ReadM.bind_apply, h]

@[simp] theorem readNameChars_zero : readNameChars 0 = ReadM.pure [] := rfl

theorem readNameChars_succ (n : Nat) :
    readNameChars (n + 1) =
      readNameChar >>= fun c => readNameChars n >>= fun cs =>
        ReadM.pure (c :: cs) := rfl

theorem consumes_absentSlot (uv : Nat) (len : Int) (h : wrapI32 len ≤ 0) :
    Consumes Material.decodeSlot (absentSlotBytes uv len)
      (0, 0, MaterialTexture.default) := by
  intro rest
  simp only [Material.decodeSlot, absentSlotBytes, List.append_assoc,
    ReadM.bind_apply, readU32le_append, readI32le_append]
  rw [if_pos h]
  rfl

theorem consumes_decodeSlots_absent (u0 u1 u2 u3 u4 : Nat)
    (l0 l1 l2 l3 l4 : Int) (h0 : wrapI32 l0 ≤ 0) (h1 : wrapI32 l1 ≤ 0)
    (h2 : wrapI32 l2 ≤ 0) (h3 : wrapI32 l3 ≤ 0) (h4 : wrapI32 l4 ≤ 0) :
    Consumes Material.decodeSlots
      (absentSlotBytes u0 l0 ++ (absentSlotBytes u1 l1 ++
       (absentSlotBytes u2 l2 ++ (absentSlotBytes u3 l3 ++
        absentSlotBytes u4 l4))))
      [(0, 0, MaterialTexture.default), (0, 0, MaterialTexture.default),
       (0, 0, MaterialTexture.default), (0, 0, MaterialTexture.default),
       (0, 0, MaterialTexture.default)] := by
  exact Consumes.eq_enc
    (Consumes.bindStep (consumes_absentSlot u0 l0 h0)
      (Consumes.bindStep (consumes_absentSlot u1 l1 h1)
      (Consumes.bindStep (consumes_absentSlot u2 l2 h2)
      (Consumes.bindStep (consumes_absentSlot u3 l3 h3)
      (Consumes.bindStep (consumes_absentSlot u4 l4 h4)
      (Consumes.pureStep _))))))
    (by simp [List.append_assoc])

theorem consumes_matrix (l : List Nat) (hl : l.length = 16) :
    Consumes Matrix.decode (u32sBytes l) ⟨l.map m32⟩ := by
  intro rest
  simp only [Matrix.decode, ReadM.bind_apply]
  rw [← hl]
  simp only [consumes_readF32s l rest, ReadM.pure_def_apply]

theorem consumes_matrixSlot (v : Int) (m : List Nat) (hm : m.length = 16) :
    Consumes Material.decodeMatrixSlot (matrixSlotBytes v m)
      (wrapI32 v != 0, if wrapI32 v == 0 then none else some ⟨m.map m32⟩) := by
  intro rest
  by_cases h : wrapI32 v = 0
  · simp [matrixSlotBytes, h, Material.decodeMatrixSlot]
  · simp [matrixSlotBytes, h, Material.decodeMatrixSlot, List.append_assoc,
      consumes_matrix m hm rest]

theorem consumes_decodeMatrixSlots (v0 v1 v2 v3 v4 : Int)
    (m0 m1 m2 m3 m4 : List Nat) (hm0 : m0.length = 16) (hm1 : m1.length = 16)
    (hm2 : m2.length = 16) (hm3 : m3.length = 16) (hm4 : m4.length = 16) :
    Consumes Material.decodeMatrixSlots
      (matrixSlotBytes v0 m0 ++ (matrixSlotBytes v1 m1 ++
       (matrixSlotBytes v2 m2 ++ (matrixSlotBytes v3 m3 ++
        matrixSlotBytes v4 m4))))
      [(wrapI32 v0 != 0, if wrapI32 v0 == 0 then none else some ⟨m0.map m32⟩),
       (wrapI32 v1 != 0, if wrapI32 v1 == 0 then none else some ⟨m1.map m32⟩),
       (wrapI32 v2 != 0, if wrapI32 v2 == 0 then none else some ⟨m2.map m32⟩),
       (wrapI32 v3 != 0, if wrapI32 v3 == 0 then none else some ⟨m3.map m32⟩),
       (wrapI32 v4 != 0, if wrapI32 v4 == 0 then none else some ⟨m4.map m32⟩)] := by
  exact Consumes.eq_enc
    (Consumes.bindStep (consumes_matrixSlot v0 m0 hm0)
      (Consumes.bindStep (consumes_matrixSlot v1 m1 hm1)
      (Consumes.bindStep (consumes_matrixSlot v2 m2 hm2)
      (Consumes.bindStep (consumes_matrixSlot v3 m3 hm3)
      (Consumes.bindStep (consumes_matrixSlot v4 m4 hm4)
      (Consumes.pureStep _))))))
    (by simp [List.append_assoc])

theorem consumes_decodeGenerators (g0 g1 g2 g3 g4 : Int) :
    Consumes Material.decodeGenerators
      (i32bytes g0 ++ (i32bytes g1 ++ (i32bytes g2 ++ (i32bytes g3 ++
       i32bytes g4))))
      [wrapI32 g0, wrapI32 g1, wrapI32 g2, wrapI32 g3, wrapI32 g4] := by
  intro rest
  simp [Material.decodeGenerators, List.append_assoc]

theorem consumes_material_with (pre : MatPrefixParams)
    {slotsEnc : List Nat} {slotsVal : List (Nat × Nat × MaterialTexture)}
    (hslots : Consumes Material.decodeSlots slotsEnc slotsVal)
    (mv0 mv1 mv2 mv3 mv4 : Int) (mm0 mm1 mm2 mm3 mm4 : List Nat)
    (hm0 : mm0.length = 16) (hm1 : mm1.length = 16) (hm2 : mm2.length = 16)
    (hm3 : mm3.length = 16) (hm4 : mm4.length = 16)
    (g0 g1 g2 g3 g4 et : Int) (dist : Nat) :
    Consumes Material.decode
      (matPrefixBytes pre ++ (slotsEnc ++ (matrixSlotBytes mv0 mm0 ++
       (matrixSlotBytes mv1 mm1 ++ (matrixSlotBytes mv2 mm2 ++
       (matrixSlotBytes mv3 mm3 ++ (matrixSlotBytes mv4 mm4 ++
       matTailBytes g0 g1 g2 g3 g4 et dist)))))))
      (expectedMaterialWith pre slotsVal mv0 mv1 mv2 mv3 mv4 g0 g1 g2 g3 g4
        et dist) :=
  Consumes.eq_enc
    (Consumes.bindStep (consumes_readU32le pre.flags)
      (Consumes.bindStep (consumes_readU32le pre.name_hash)
      (Consumes.bindStep (consumes_readBool32 pre.additive_lighting_model)
      (Consumes.bindStep (consumes_rgba pre.colour)
      (Consumes.bindStep (consumes_rgba pre.specular)
      (Consumes.bindStep (consumes_readF32le pre.power)
      (Consumes.bindStep (consumes_readI32le pre.shading_mode)
      (Consumes.bindStep (consumes_readBool32 pre.blend)
      (Consumes.bindStep
        (consumes_blend_modes pre.blend_source pre.blend_destination)
      (Consumes.bindStep (consumes_readBool32 pre.alpha_test)
      (Consumes.bindStep
        (consumes_alpha_test_mode pre.alpha_comparision pre.alpha_reference)
      (Consumes.bindStep (consumes_readBool32 pre.depth_buffer_write)
      (Consumes.bindStep
        (consumes_readI32le pre.depth_buffer_comparison_mode)
      (Consumes.bindStep (consumes_readU32le pre.material_hash)
      (Consumes.bindStep (consumes_readU32le pre.owner)
      (Consumes.bindStep (consumes_readU32le pre.colour_buffer_write)
      (Consumes.bindStep hslots
      (Consumes.bindStep
        (consumes_decodeMatrixSlots mv0 mv1 mv2 mv3 mv4 mm0 mm1 mm2 mm3 mm4
          hm0 hm1 hm2 hm3 hm4)
      (Consumes.bindStep (consumes_decodeGenerators g0 g1 g2 g3 g4)
      (Consumes.bindStep (consumes_readI32le et)
      (Consumes.mapStep _ (consumes_readF32le dist))))))))))))))))))))))
    (by simp [matPrefixBytes, matTailBytes, List.append_assoc])

/-- Claim C1 (amended): for every byte buffer matching the Material payload
grammar in which all 5 texture slots declare a name length ≤ 0, decoding
succeeds and yields a Material whose textures are all the default (absent)
texture record and whose per-slot `uv_sets` and `texture_hashes` arrays stay
at their initial zeros: the UV-set words read for those slots are discarded
(the source records them only inside the positive-length branch, which the
`continue` skips) and no hash bytes are read for an absent slot at all. -/
theorem material_absent_slots_round_trip (pre : MatPrefixParams)
    (u0 u1 u2 u3 u4 : Nat) (l0 l1 l2 l3 l4 : Int)
    (h0 : wrapI32 l0 ≤ 0) (h1 : wrapI32 l1 ≤ 0) (h2 : wrapI32 l2 ≤ 0)
    (h3 : wrapI32 l3 ≤ 0) (h4 : wrapI32 l4 ≤ 0)
    (mv0 mv1 mv2 mv3 mv4 : Int) (mm0 mm1 mm2 mm3 mm4 : List Nat)
    (hm0 : mm0.length = 16) (hm1 : mm1.length = 16) (hm2 : mm2.length = 16)
    (hm3 : mm3.length = 16) (hm4 : mm4.length = 16)
    (g0 g1 g2 g3 g4 et : Int) (dist : Nat) (rest : List Nat) :
    Material.decode (matPrefixBytes pre ++
      (absentSlotBytes u0 l0 ++ (absentSlotBytes u1 l1 ++
      (absentSlotBytes u2 l2 ++ (absentSlotBytes u3 l3 ++
      (absentSlotBytes u4 l4 ++ (matrixSlotBytes mv0 mm0 ++
      (matrixSlotBytes mv1 mm1 ++ (matrixSlotBytes mv2 mm2 ++
      (matrixSlotBytes mv3 mm3 ++ (matrixSlotBytes mv4 mm4 ++
      matTailBytes g0 g1 g2 g3 g4 et dist)))))))))) ++ rest) =
      .ok
        ({ material_hash := m32 pre.material_hash,
           attributes :=
             { flags := m32 pre.flags,
               additive_lighting_model :=
                 wrapI32 pre.additive_lighting_model != 0,
               colour := rgbaM pre.colour,
               specular := rgbaM pre.specular,
               power := m32 pre.power,
               shading_mode := wrapI32 pre.shading_mode,
               depth_buffer_write := wrapI32 pre.depth_buffer_write != 0,
               depth_buffer_comparison_mode :=
                 wrapI32 pre.depth_buffer_comparison_mode,
               blend := wrapI32 pre.blend != 0,
               blend_modes :=
                 ⟨wrapI32 pre.blend_source, wrapI32 pre.blend_destination⟩,
               alpha_test := wrapI32 pre.alpha_test != 0,
               alpha_test_mode :=
                 ⟨wrapI32 pre.alpha_comparision, m32 pre.alpha_reference⟩,
               owner := m32 pre.owner,
               colour_buffer_write := m32 pre.colour_buffer_write,
               use_matrices := [wrapI32 mv0 != 0, wrapI32 mv1 != 0,
                 wrapI32 mv2 != 0, wrapI32 mv3 != 0, wrapI32 mv4 != 0],
               generators := [wrapI32 g0, wrapI32 g1, wrapI32 g2,
                 wrapI32 g3, wrapI32 g4],
               uv_sets := [0, 0, 0, 0, 0],
               texture_hashes := [0, 0, 0, 0, 0],
               envmap_type := wrapI32 et,
               planar_sheer_envmap_distance := m32 dist },
           textures := [MaterialTexture.default, MaterialTexture.default,
             MaterialTexture.default, MaterialTexture.default,
             MaterialTexture.default] }, rest) := by
  have hmain := consumes_material_with pre
    (consumes_decodeSlots_absent u0 u1 u2 u3 u4 l0 l1 l2 l3 l4 h0 h1 h2 h3
      h4) mv0 mv1 mv2 mv3 mv4 mm0 mm1 mm2 mm3 mm4 hm0 hm1 hm2 hm3 hm4
    g0 g1 g2 g3 g4 et dist
  exact Consumes.eq_enc hmain (by simp [List.append_assoc]) rest

/-- Witness for claim C1: the absent-slot round trip applied to the concrete
all-zero prefix with slot UV-set words 1..5 and name lengths 0, -1, -7, 0, -2,
no matrices, generators 1..5, envmap type 6 and distance 8. -/
theorem material_absent_slots_round_trip_witness :
    Material.decode (matPrefixBytes zeroPrefixParams ++
      (absentSlotBytes 1 0 ++ (absentSlotBytes 2 (-1) ++
      (absentSlotBytes 3 (-7) ++ (absentSlotBytes 4 0 ++
      (absentSlotBytes 5 (-2) ++ (matrixSlotBytes 0 (List.replicate 16 0) ++
      (matrixSlotBytes 0 (List.replicate 16 0) ++
      (matrixSlotBytes 0 (List.replicate 16 0) ++
      (matrixSlotBytes 0 (List.replicate 16 0) ++
      (matrixSlotBytes 0 (List.replicate 16 0) ++
      matTailBytes 1 2 3 4 5 6 8)))))))))) ++ []) =
      .ok
        ({ material_hash := 0,
           attributes :=
             { flags := 0, additive_lighting_model := false,
               colour := ⟨0, 0, 0, 0⟩, specular := ⟨0, 0, 0, 0⟩, power := 0,
               shading_mode := 0, depth_buffer_write := false,
               depth_buffer_comparison_mode := 0, blend := false,
               blend_modes := ⟨0, 0⟩, alpha_test := false,
               alpha_test_mode := ⟨0, 0⟩, owner := 0,
               colour_buffer_write := 0,
               use_matrices := [false, false, false, false, false],
               generators := [1, 2, 3, 4, 5],
               uv_sets := [0, 0, 0, 0, 0],
               texture_hashes := [0, 0, 0, 0, 0],
               envmap_type := 6,
               planar_sheer_envmap_distance := 8 },
           textures := [MaterialTexture.default, MaterialTexture.default,
             MaterialTexture.default, MaterialTexture.default,
             MaterialTexture.default] }, []) :=
  material_absent_slots_round_trip zeroPrefixParams 1 2 3 4 5 0 (-1) (-7) 0
    (-2) (by decide) (by decide) (by decide) (by decide) (by decide)
    0 0 0 0 0 (List.replicate 16 0) (List.replicate 16 0)
    (List.replicate 16 0) (List.replicate 16 0) (List.replicate 16 0)
    (by decide) (by decide) (by decide) (by decide) (by decide)
    1 2 3 4 5 6 8 []

/-- Counterexample for claim C1 as stated: in `c1CexBytes` the first slot's
UV-set bytes encode the value 7 (and its name length is 0), so the claim
demands `uv_sets = [7, 0, 0, 0, 0]`; decoding succeeds but leaves
`uv_sets = [0, 0, 0, 0, 0]` — the UV-set value read for an absent slot is
not recorded. -/
theorem material_absent_slot_uv_set_not_recorded :
    Material.decode c1CexBytes = .ok (c1CexMaterial, []) ∧
    c1CexMaterial.attributes.uv_sets = [0, 0, 0, 0, 0] ∧
    ([0, 0, 0, 0, 0] : List Nat) ≠ [7, 0, 0, 0, 0] := by
  have hmain := consumes_material_with zeroPrefixParams
    (consumes_decodeSlots_absent 7 0 0 0 0 0 0 0 0 0 (by decide) (by decide)
      (by decide) (by decide) (by decide))
    0 0 0 0 0 (List.replicate 16 0) (List.replicate 16 0)
    (List.replicate 16 0) (List.replicate 16 0) (List.replicate 16 0)
    (by decide) (by decide) (by decide) (by decide) (by decide)
    0 0 0 0 0 0 0
  have hC : Consumes Material.decode c1CexBytes
      (expectedMaterialWith zeroPrefixParams
        [(0, 0, MaterialTexture.default), (0, 0, MaterialTexture.default),
         (0, 0, MaterialTexture.default), (0, 0, MaterialTexture.default),
         (0, 0, MaterialTexture.default)] 0 0 0 0 0 0 0 0 0 0 0 0) :=
    Consumes.eq_enc hmain (by simp [c1CexBytes, List.append_assoc])
  have hrun := Consumes.run_nil hC
  have hval : expectedMaterialWith zeroPrefixParams
      [(0, 0, MaterialTexture.default), (0, 0, MaterialTexture.default),
       (0, 0, MaterialTexture.default), (0, 0, MaterialTexture.default),
       (0, 0, MaterialTexture.default)] 0 0 0 0 0 0 0 0 0 0 0 0 =
      c1CexMaterial := by decide
  rw [hval] at hrun
  exact ⟨hrun, rfl, by decide⟩

theorem consumes_readNameChars_one (v : Int) :
    Consumes (readNameChars 1) (i32bytes v) [intAsU8 (wrapI32 v)] := by
  intro rest
  rw [show (1 : Nat) = 0 + 1 from rfl, readNameChars_succ]
  simp [readNameChar, ReadM.bind_apply]

theorem decodeSlot_neg_mask_err (uv : Nat) (ch fmt fil addr maskLen : Int)
    (h : wrapI32 maskLen < 0) (rest : List Nat) :
    Material.decodeSlot (posSlotHeadBytes uv ch fmt fil addr maskLen ++ rest) =
      .error .capacityOverflow := by
  have hcap : isizeMax < charSize * intAsUsize (wrapI32 maskLen) := by
    have hlb := wrapI32_lb maskLen
    unfold charSize isizeMax intAsUsize
    omega
  have heq : posSlotHeadBytes uv ch fmt fil addr maskLen ++ rest =
      u32bytes uv ++ (i32bytes 1 ++ (i32bytes ch ++ (i32bytes fmt ++
      (i32bytes fil ++ (i32bytes addr ++ (i32bytes maskLen ++ rest)))))) := by
    simp [posSlotHeadBytes, List.append_assoc]
  rw [heq]
  unfold Material.decodeSlot
  refine Consumes.bind_err (consumes_readU32le uv) ?_
  refine Consumes.bind_err (consumes_readI32le 1) ?_
  rw [show wrapI32 1 = 1 from rfl, if_neg (by decide : ¬ ((1 : Int) ≤ 0))]
  refine Consumes.bind_err_nil
    (@consumes_checkCap charSize (intAsUsize 1) (by decide)) ?_
  refine Consumes.bind_err (consumes_readNameChars_one ch) ?_
  refine Consumes.bind_err (consumes_readI32le fmt) ?_
  refine Consumes.bind_err (consumes_readI32le fil) ?_
  refine Consumes.bind_err (consumes_readI32le addr) ?_
  refine Consumes.bind_err (consumes_readI32le maskLen) ?_
  exact ReadM.bind_error (checkCap_overflow hcap rest)

theorem material_neg_mask_panics_general (pre : MatPrefixParams) (uv : Nat)
    (ch fmt fil addr maskLen : Int) (h : wrapI32 maskLen < 0)
    (rest : List Nat) :
    Material.decode (matPrefixBytes pre ++
      (posSlotHeadBytes uv ch fmt fil addr maskLen ++ rest)) =
      .error .capacityOverflow := by
  have hslots : Material.decodeSlots
      (posSlotHeadBytes uv ch fmt fil addr maskLen ++ rest) =
      .error .capacityOverflow :=
    ReadM.bind_error (decodeSlot_neg_mask_err uv ch fmt fil addr maskLen h rest)
  have heq : matPrefixBytes pre ++
      (posSlotHeadBytes uv ch fmt fil addr maskLen ++ rest) =
      u32bytes pre.flags ++ (u32bytes pre.name_hash ++
      (i32bytes pre.additive_lighting_model ++ (rgbaBytes pre.colour ++
      (rgbaBytes pre.specular ++ (u32bytes pre.power ++
      (i32bytes pre.shading_mode ++ (i32bytes pre.blend ++
      ((i32bytes pre.blend_source ++ i32bytes pre.blend_destination) ++
      (i32bytes pre.alpha_test ++
      ((i32bytes pre.alpha_comparision ++ u32bytes pre.alpha_reference) ++
      (i32bytes pre.depth_buffer_write ++
      (i32bytes pre.depth_buffer_comparison_mode ++
      (u32bytes pre.material_hash ++ (u32bytes pre.owner ++
      (u32bytes pre.colour_buffer_write ++
      (posSlotHeadBytes uv ch fmt fil addr maskLen ++
        rest)))))))))))))))) := by
    simp [matPrefixBytes, List.append_assoc]
  rw [heq]
  unfold Material.decode
  refine Consumes.bind_err (consumes_readU32le pre.flags) ?_
  refine Consumes.bind_err (consumes_readU32le pre.name_hash) ?_
  refine Consumes.bind_err (consumes_readBool32 pre.additive_lighting_model) ?_
  refine Consumes.bind_err (consumes_rgba pre.colour) ?_
  refine Consumes.bind_err (consumes_rgba pre.specular) ?_
  refine Consumes.bind_err (consumes_readF32le pre.power) ?_
  refine Consumes.bind_err (consumes_readI32le pre.shading_mode) ?_
  refine Consumes.bind_err (consumes_readBool32 pre.blend) ?_
  refine Consumes.bind_err
    (consumes_blend_modes pre.blend_source pre.blend_destination) ?_
  refine Consumes.bind_err (consumes_readBool32 pre.alpha_test) ?_
  refine Consumes.bind_err
    (consumes_alpha_test_mode pre.alpha_comparision pre.alpha_reference) ?_
  refine Consumes.bind_err (consumes_readBool32 pre.depth_buffer_write) ?_
  refine Consumes.bind_err
    (consumes_readI32le pre.depth_buffer_comparison_mode) ?_
  refine Consumes.bind_err (consumes_readU32le pre.material_hash) ?_
  refine Consumes.bind_err (consumes_readU32le pre.owner) ?_
  refine Consumes.bind_err (consumes_readU32le pre.colour_buffer_write) ?_
  exact ReadM.bind_error hslots

/-- Claim C3 (amended): a texture-slot name length ≤ 0 marks the slot absent
without any error, but a declared mask-name length that is negative is not
surfaced as a returned InvalidLength error — the code has no such error at
all. Instead `Vec::with_capacity(mask_name_length as usize)` is reached with
a capacity that exceeds `isize::MAX` bytes (any negative 32-bit value cast
with `as usize` does), and the process aborts with a capacity-overflow
panic, modelled here as the `capacityOverflow` outcome of the whole
`Material::decode` call. -/
theorem material_negative_mask_len_panics (pre : MatPrefixParams) (uv : Nat)
    (ch fmt fil addr maskLen : Int) (h : wrapI32 maskLen < 0)
    (rest : List Nat) :
    Material.decode (matPrefixBytes pre ++
      (posSlotHeadBytes uv ch fmt fil addr maskLen ++ rest)) =
      .error .capacityOverflow :=
  material_neg_mask_panics_general pre uv ch fmt fil addr maskLen h rest

/-- Witness for claim C3: the negative-mask-length theorem applied to the
all-zero prefix with slot UV-set 3, name character 65, codes 1, 2, 3 and
mask-name length -5. -/
theorem material_negative_mask_len_panics_witness :
    Material.decode (matPrefixBytes zeroPrefixParams ++
      (posSlotHeadBytes 3 65 1 2 3 (-5) ++ [])) =
      .error .capacityOverflow :=
  material_negative_mask_len_panics zeroPrefixParams 3 65 1 2 3 (-5)
    (by decide) []

/-- Counterexample for claim C3 as stated: on a concrete buffer whose first
texture slot declares name length 1 and mask-name length -1, the decode
outcome is the capacity-overflow panic of `Vec::with_capacity((-1) as
usize)`. It is not an InvalidLength error returned to the caller: the
decoder's error type (translated from the source) has no InvalidLength
variant at all, and a panic aborts rather than returns. -/
theorem material_negative_mask_len_not_invalid_length :
    Material.decode (matPrefixBytes zeroPrefixParams ++
      (posSlotHeadBytes 0 65 0 0 0 (-1) ++ [])) =
      .error .capacityOverflow :=
  material_neg_mask_panics_general zeroPrefixParams 0 65 0 0 0 (-1)
    (by decide) []

theorem consumes_posSlot1 (uv : Nat) (ch fmt fil addr : Int) (bc : Rgba)
    (hsh : Nat) :
    Consumes Material.decodeSlot
      (u32bytes uv ++ (i32bytes 1 ++ (i32bytes ch ++ (i32bytes fmt ++
       (i32bytes fil ++ (i32bytes addr ++ (i32bytes 0 ++
       (rgbaBytes bc ++ u32bytes hsh))))))))
      (m32 uv, m32 hsh, ⟨m32 uv, [intAsU8 (wrapI32 ch)], wrapI32 fmt,
        wrapI32 addr, [], rgbaM bc, m32 hsh⟩) := by
  intro rest
  have hck1 := @checkCap_ok charSize (intAsUsize 1) (by decide)
  have hck0 := @checkCap_ok charSize (intAsUsize 0) (by decide)
  have ht1 : ((1 : Int)).toNat = 1 := rfl
  have ht0 : ((0 : Int)).toNat = 0 := rfl
  have hw1 : wrapI32 1 = 1 := rfl
  simp only [Material.decodeSlot, List.append_assoc, ReadM.bind_apply,
    readU32le_append, readI32le_append, hw1]
  rw [if_neg (by decide : ¬ ((1 : Int) ≤ 0))]
  have hname : ∀ r, readNameChars 1 (i32bytes ch ++ r) =
      .ok ([intAsU8 (wrapI32 ch)], r) := consumes_readNameChars_one ch
  have hrg : ∀ r, Rgba.decode (rgbaBytes bc ++ r) = .ok (rgbaM bc, r) :=
    consumes_rgba bc
  simp only [ReadM.bind_apply, hck1, ht1, hname,
    readI32le_append, wrapI32_zero, hck0, ht0, readNameChars_zero,
    ReadM.pure_def_apply, hrg, readU32le_append]

theorem material_c10_decode :
    Material.decode c10Bytes = .ok (c10Material, []) := by
  have hfull : Consumes Material.decodeSlot fullSlotBytes
      (7, 9, ⟨7, [65], 0, 0, [], ⟨0, 0, 0, 0⟩, 9⟩) :=
    Consumes.eq_enc (consumes_posSlot1 7 65 0 0 0 ⟨0, 0, 0, 0⟩ 9)
      (by simp [fullSlotBytes])
  have hslots : Consumes Material.decodeSlots
      (fullSlotBytes ++ (absentSlotBytes 0 0 ++ (absentSlotBytes 0 0 ++
       (absentSlotBytes 0 0 ++ absentSlotBytes 0 0))))
      [(7, 9, ⟨7, [65], 0, 0, [], ⟨0, 0, 0, 0⟩, 9⟩),
       (0, 0, MaterialTexture.default), (0, 0, MaterialTexture.default),
       (0, 0, MaterialTexture.default), (0, 0, MaterialTexture.default)] :=
    Consumes.eq_enc
      (Consumes.bindStep hfull
        (Consumes.bindStep (consumes_absentSlot 0 0 (by decide))
        (Consumes.bindStep (consumes_absentSlot 0 0 (by decide))
        (Consumes.bindStep (consumes_absentSlot 0 0 (by decide))
        (Consumes.bindStep (consumes_absentSlot 0 0 (by decide))
        (Consumes.pureStep _))))))
      (by simp [List.append_assoc])
  have hmain := consumes_material_with zeroPrefixParams hslots
    0 0 0 0 0 (List.replicate 16 0) (List.replicate 16 0)
    (List.replicate 16 0) (List.replicate 16 0) (List.replicate 16 0)
    (by decide) (by decide) (by decide) (by decide) (by decide)
    0 0 0 0 0 0 0
  have hC : Consumes Material.decode c10Bytes
      (expectedMaterialWith zeroPrefixParams
        [(7, 9, ⟨7, [65], 0, 0, [], ⟨0, 0, 0, 0⟩, 9⟩),
         (0, 0, MaterialTexture.default), (0, 0, MaterialTexture.default),
         (0, 0, MaterialTexture.default), (0, 0, MaterialTexture.default)]
        0 0 0 0 0 0 0 0 0 0 0 0) :=
    Consumes.eq_enc hmain (by simp [c10Bytes, List.append_assoc])
  have hrun := Consumes.run_nil hC
  have hval : expectedMaterialWith zeroPrefixParams
      [(7, 9, ⟨7, [65], 0, 0, [], ⟨0, 0, 0, 0⟩, 9⟩),
       (0, 0, MaterialTexture.default), (0, 0, MaterialTexture.default),
       (0, 0, MaterialTexture.default), (0, 0, MaterialTexture.default)]
      0 0 0 0 0 0 0 0 0 0 0 0 = c10Material := by decide
  rw [hval] at hrun
  exact hrun

theorem decodeSlot_inv {s s1 : List Nat} {r : Nat × Nat × MaterialTexture}
    (h : Material.decodeSlot s = .ok (r, s1)) :
    r.1 = r.2.2.uv_set ∧ r.2.1 = r.2.2.hash := by
  unfold Material.decodeSlot at h
  obtain ⟨uv, t1, hu, h⟩ := ReadM.bind_eq_ok.mp h
  obtain ⟨nl, t2, hn, h⟩ := ReadM.bind_eq_ok.mp h
  by_cases hle : nl ≤ 0
  · rw [if_pos hle] at h
    simp only [ReadM.pure_def_apply, Except.ok.injEq, Prod.mk.injEq] at h
    rw [← h.1]
    exact ⟨rfl, rfl⟩
  · rw [if_neg hle] at h
    obtain ⟨u1, t3, _, h⟩ := ReadM.bind_eq_ok.mp h
    obtain ⟨nm, t4, _, h⟩ := ReadM.bind_eq_ok.mp h
    obtain ⟨fm, t5, _, h⟩ := ReadM.bind_eq_ok.mp h
    obtain ⟨fl, t6, _, h⟩ := ReadM.bind_eq_ok.mp h
    obtain ⟨ad, t7, _, h⟩ := ReadM.bind_eq_ok.mp h
    obtain ⟨ml, t8, _, h⟩ := ReadM.bind_eq_ok.mp h
    obtain ⟨u2, t9, _, h⟩ := ReadM.bind_eq_ok.mp h
    obtain ⟨mn, t10, _, h⟩ := ReadM.bind_eq_ok.mp h
    obtain ⟨bc, t11, _, h⟩ := ReadM.bind_eq_ok.mp h
    obtain ⟨hs, t12, _, h⟩ := ReadM.bind_eq_ok.mp h
    simp only [ReadM.pure_def_apply, Except.ok.injEq, Prod.mk.injEq] at h
    rw [← h.1]
    exact ⟨rfl, rfl⟩

/-- Claim C10: after a successful Material decode, every texture slot whose
declared name length was positive (equivalently, whose decoded texture
carries a nonempty name — absent slots keep the empty default name) has its
duplicated per-slot array entries in agreement with the texture record:
`attributes.uv_sets[i] = textures[i].uv_set` and
`attributes.texture_hashes[i] = textures[i].hash`. (The invariant is proved
for every slot, present or absent; the name hypothesis mirrors the claim's
conditioning.) -/
theorem material_slot_arrays_match (bytes rest : List Nat) (m : Material)
    (h : Material.decode bytes = .ok (m, rest)) (i : Nat) (hi : i < 5)
    (hname : (m.textures.getD i MaterialTexture.default).name ≠ []) :
    m.attributes.uv_sets.getD i 0 =
      (m.textures.getD i MaterialTexture.default).uv_set ∧
    m.attributes.texture_hashes.getD i 0 =
      (m.textures.getD i MaterialTexture.default).hash := by
  unfold Material.decode at h
  obtain ⟨x1, t1, _, h⟩ := ReadM.bind_eq_ok.mp h
  obtain ⟨x2, t2, _, h⟩ := ReadM.bind_eq_ok.mp h
  obtain ⟨x3, t3, _, h⟩ := ReadM.bind_eq_ok.mp h
  obtain ⟨x4, t4, _, h⟩ := ReadM.bind_eq_ok.mp h
  obtain ⟨x5, t5, _, h⟩ := ReadM.bind_eq_ok.mp h
  obtain ⟨x6, t6, _, h⟩ := ReadM.bind_eq_ok.mp h
  obtain ⟨x7, t7, _, h⟩ := ReadM.bind_eq_ok.mp h
  obtain ⟨x8, t8, _, h⟩ := ReadM.bind_eq_ok.mp h
  obtain ⟨x9, t9, _, h⟩ := ReadM.bind_eq_ok.mp h
  obtain ⟨x10, t10, _, h⟩ := ReadM.bind_eq_ok.mp h
  obtain ⟨x11, t11, _, h⟩ := ReadM.bind_eq_ok.mp h
  obtain ⟨x12, t12, _, h⟩ := ReadM.bind_eq_ok.mp h
  obtain ⟨x13, t13, _, h⟩ := ReadM.bind_eq_ok.mp h
  obtain ⟨x14, t14, _, h⟩ := ReadM.bind_eq_ok.mp h
  obtain ⟨x15, t15, _, h⟩ := ReadM.bind_eq_ok.mp h
  obtain ⟨x16, t16, _, h⟩ := ReadM.bind_eq_ok.mp h
  obtain ⟨slots, ts, hslots, h⟩ := ReadM.bind_eq_ok.mp h
  obtain ⟨mats, tm, _, h⟩ := ReadM.bind_eq_ok.mp h
  obtain ⟨gens, tg, _, h⟩ := ReadM.bind_eq_ok.mp h
  obtain ⟨et, te, _, h⟩ := ReadM.bind_eq_ok.mp h
  obtain ⟨dist, td, _, h⟩ := ReadM.bind_eq_ok.mp h
  simp only [ReadM.pure_def_apply, Except.ok.injEq, Prod.mk.injEq] at h
  unfold Material.decodeSlots at hslots
  obtain ⟨a0, w1, hs0, hslots⟩ := ReadM.bind_eq_ok.mp hslots
  obtain ⟨a1, w2, hs1, hslots⟩ := ReadM.bind_eq_ok.mp hslots
  obtain ⟨a2, w3, hs2, hslots⟩ := ReadM.bind_eq_ok.mp hslots
  obtain ⟨a3, w4, hs3, hslots⟩ := ReadM.bind_eq_ok.mp hslots
  obtain ⟨a4, w5, hs4, hslots⟩ := ReadM.bind_eq_ok.mp hslots
  simp only [ReadM.pure_def_apply, Except.ok.injEq, Prod.mk.injEq] at hslots
  have hv0 := decodeSlot_inv hs0
  have hv1 := decodeSlot_inv hs1
  have hv2 := decodeSlot_inv hs2
  have hv3 := decodeSlot_inv hs3
  have hv4 := decodeSlot_inv hs4
  rw [← h.1, ← hslots.1]
  interval_cases i
  · exact ⟨hv0.1, hv0.2⟩
  · exact ⟨hv1.1, hv1.2⟩
  · exact ⟨hv2.1, hv2.2⟩
  · exact ⟨hv3.1, hv3.2⟩
  · exact ⟨hv4.1, hv4.2⟩

/-- Witness for claim C10: the slot-array agreement applied to the concrete
buffer `c10Bytes`, whose first slot declares a one-character name (so the
decoded texture's name is nonempty), UV-set 7 and hash 9. -/
theorem material_slot_arrays_match_witness :
    c10Material.attributes.uv_sets.getD 0 0 =
      (c10Material.textures.getD 0 MaterialTexture.default).uv_set ∧
    c10Material.attributes.texture_hashes.getD 0 0 =
      (c10Material.textures.getD 0 MaterialTexture.default).hash :=
  material_slot_arrays_match c10Bytes [] c10Material material_c10_decode 0
    (by decide) (by decide)

theorem modelPart_short_header {s : List Nat} (h : s.length = 77) :
    ModelPart.decode s = .error .shortRead := by
  obtain ⟨v1, h1⟩ := readU32le_ok_of_le (s := s) (by omega)
  obtain ⟨v2, h2⟩ := readU32le_ok_of_le (s := s.drop 4)
    (by simp only [List.length_drop, h]; omega)
  obtain ⟨v3, h3⟩ := readU32le_ok_of_le (s := s.drop 8)
    (by simp only [List.length_drop, h]; omega)
  obtain ⟨v4, h4⟩ := readU32le_ok_of_le (s := s.drop 12)
    (by simp only [List.length_drop, h]; omega)
  obtain ⟨v5, h5⟩ := readU32le_ok_of_le (s := s.drop 16)
    (by simp only [List.length_drop, h]; omega)
  obtain ⟨v6, h6⟩ := readU32le_ok_of_le (s := s.drop 20)
    (by simp only [List.length_drop, h]; omega)
  obtain ⟨v7, h7⟩ := readU32le_ok_of_le (s := s.drop 24)
    (by simp only [List.length_drop, h]; omega)
  obtain ⟨v8, h8⟩ := readU32le_ok_of_le (s := s.drop 28)
    (by simp only [List.length_drop, h]; omega)
  obtain ⟨v9, h9⟩ := readU32le_ok_of_le (s := s.drop 32)
    (by simp only [List.length_drop, h]; omega)
  obtain ⟨v10, h10⟩ := readU16le_ok_of_le (s := s.drop 36)
    (by simp only [List.length_drop, h]; omega)
  obtain ⟨v11, h11⟩ := readU16le_ok_of_le (s := s.drop 38)
    (by simp only [List.length_drop, h]; omega)
  obtain ⟨v12, h12⟩ := readU16le_ok_of_le (s := s.drop 40)
    (by simp only [List.length_drop, h]; omega)
  obtain ⟨v13, h13⟩ := readU32le_ok_of_le (s := s.drop 42)
    (by simp only [List.length_drop, h]; omega)
  obtain ⟨v14, h14⟩ := readI32le_ok_of_le (s := s.drop 46)
    (by simp only [List.length_drop, h]; omega)
  obtain ⟨v15, h15⟩ := readI32le_ok_of_le (s := s.drop 50)
    (by simp only [List.length_drop, h]; omega)
  obtain ⟨v16, h16⟩ := readI32le_ok_of_le (s := s.drop 54)
    (by simp only [List.length_drop, h]; omega)
  obtain ⟨v17, h17⟩ := readI32le_ok_of_le (s := s.drop 58)
    (by simp only [List.length_drop, h]; omega)
  obtain ⟨v18, h18⟩ := readU32le_ok_of_le (s := s.drop 62)
    (by simp only [List.length_drop, h]; omega)
  obtain ⟨v19, h19⟩ := readU32le_ok_of_le (s := s.drop 66)
    (by simp only [List.length_drop, h]; omega)
  obtain ⟨v20, h20⟩ := readU32le_ok_of_le (s := s.drop 70)
    (by simp only [List.length_drop, h]; omega)
  have herr : readU32le (s.drop 74) = .error .shortRead :=
    readU32le_err_of_lt (by simp only [List.length_drop, h]; omega)
  simp only [List.drop_drop, Nat.reduceAdd] at h2 h3 h4 h5 h6 h7 h8 h9 h10
  simp only [List.drop_drop, Nat.reduceAdd] at h11 h12 h13 h14 h15
  simp only [List.drop_drop, Nat.reduceAdd] at h16 h17 h18 h19 h20
  simp only [ModelPart.decode, ReadM.bind_apply, h1, h2, h3, h4, h5, h6, h7,
    h8, h9, h10, h11, h12, h13, h14, h15, h16, h17, h18, h19, h20, herr]

/-- Counterexample for claim C4 as stated: the header enumerated by the
claim has 21 fields, whose widths total 78 bytes; any 20 fields drawn from
those widths total at most 76 bytes. A 77-byte payload (with a zero vertex
count, so no vertex bytes are needed) still fails with a short read on the
21st field, and the full 78-byte payload succeeds consuming every byte —
so the header cannot be 20 fields. -/
theorem model_part_header_is_21_fields :
    ModelPart.decode (List.replicate 77 0) = .error .shortRead ∧
    ModelPart.decode (List.replicate 78 0) =
      .ok (⟨0, 0, 0, 0, 0, 0, 0, 0, 0, 0, 0, 0, 0, 0, 0, 0, 0, 0, 0, 0, []⟩,
        []) := by
  constructor
  · exact modelPart_short_header (by decide)
  · have h78 : List.replicate 78 0 = modelPartBytes zeroMPParams ++ [] := by
      decide
    have hmp := consumes_modelPart zeroMPParams (by decide)
      (by intro q hq; cases hq) []
    rw [h78, hmp]
    decide

end SpookyBsp
